import Mathlib

/-!
Verification of the BRAIN microservice conversation core (session store +
rule engine) against its natural-language specification.

The Python sources `memory_manager.py` and `rule_engine.py` are shallowly
embedded below: dictionaries become association lists over an untyped
`Value` type, the session record becomes a structure whose boolean flags
model the post-coercion form the engine itself establishes, and every
Python early `return` becomes a branch of a pure Lean function.  Fallible
operations of the raw (untyped) entry path are modelled with `Except`.
-/

/-- Untyped Python value as stored in session dictionaries. -/
inductive Value where
  | none : Value
  | bool : Bool → Value
  | int : Int → Value
  | str : String → Value
  | dict : List (String × Value) → Value

/-- Python truthiness (`bool(v)`): None, False, 0, "", and the empty dict
are falsy; everything else is truthy. -/
def pyTruthy : Value → Bool
  | Value.none => false
  | Value.bool b => b
  | Value.int n => n != 0
  | Value.str s => s != ""
  | Value.dict d => !d.isEmpty

/-- Python `str(v)` rendering, used where the source interpolates values
into f-strings.  The dict rendering is schematic (no claim reads it). -/
def pyStr : Value → String
  | Value.none => "None"
  | Value.bool true => "True"
  | Value.bool false => "False"
  | Value.int n => toString n
  | Value.str s => s
  | Value.dict _ => "\x7b...\x7d"

/-- Python `v is None`. -/
def isNone : Value → Bool
  | Value.none => true
  | _ => false

/-- `d.get(k)`: first binding for `k`, defaulting to `None`. -/
def dget (d : List (String × Value)) (k : String) : Value :=
  match d.lookup k with
  | some v => v
  | Option.none => Value.none

/-- `d.get(k, default)`. -/
def dgetD (d : List (String × Value)) (k : String) (dflt : Value) : Value :=
  match d.lookup k with
  | some v => v
  | Option.none => dflt

/-- ASCII lower-casing of one character, as `str.lower` acts on the
key/token sets appearing in the source. -/
def asciiLower (c : Char) : Char :=
  match c with
  | 'A' => 'a' | 'B' => 'b' | 'C' => 'c' | 'D' => 'd' | 'E' => 'e'
  | 'F' => 'f' | 'G' => 'g' | 'H' => 'h' | 'I' => 'i' | 'J' => 'j'
  | 'K' => 'k' | 'L' => 'l' | 'M' => 'm' | 'N' => 'n' | 'O' => 'o'
  | 'P' => 'p' | 'Q' => 'q' | 'R' => 'r' | 'S' => 's' | 'T' => 't'
  | 'U' => 'u' | 'V' => 'v' | 'W' => 'w' | 'X' => 'x' | 'Y' => 'y'
  | 'Z' => 'z' | c => c

/-- ASCII upper-casing of one character, as `str.upper` acts on the
key sets appearing in the source. -/
def asciiUpper (c : Char) : Char :=
  match c with
  | 'a' => 'A' | 'b' => 'B' | 'c' => 'C' | 'd' => 'D' | 'e' => 'E'
  | 'f' => 'F' | 'g' => 'G' | 'h' => 'H' | 'i' => 'I' | 'j' => 'J'
  | 'k' => 'K' | 'l' => 'L' | 'm' => 'M' | 'n' => 'N' | 'o' => 'O'
  | 'p' => 'P' | 'q' => 'Q' | 'r' => 'R' | 's' => 'S' | 't' => 'T'
  | 'u' => 'U' | 'v' => 'V' | 'w' => 'W' | 'x' => 'X' | 'y' => 'Y'
  | 'z' => 'Z' | c => c

/-- `s.lower()`. -/
def strLower (s : String) : String := ⟨s.data.map asciiLower⟩

/-- `s.upper()`. -/
def strUpper (s : String) : String := ⟨s.data.map asciiUpper⟩

/-- Python `s.strip()` über the ASCII whitespace the engine meets. -/
def pyStrip (s : String) : String :=
  ⟨((s.data.dropWhile Char.isWhitespace).reverse.dropWhile Char.isWhitespace).reverse⟩

/-- Python `needle in hay` substring test. -/
def substrOf (needle hay : String) : Bool := decide (needle.data <:+: hay.data)

/-- Python `s.split()`: split on whitespace runs, dropping empty pieces. -/
def pySplit (s : String) : List String :=
  (s.split Char.isWhitespace).filter (fun p => p != "")

/-- Python `l[-n:]` on a list. -/
def lastN (n : Nat) (l : List String) : List String := l.drop (l.length - n)

/-- Python `" ".join(l)`. -/
def joinSpace : List String → String
  | [] => ""
  | [x] => x
  | x :: xs => x ++ " " ++ joinSpace xs

namespace MemoryManager

/-- `SUMMARY_MAX_CHARS` (default configuration value). -/
def SUMMARY_MAX_CHARS : Nat := 4000

/-- `UPPER_MAP`: canonical casing for the known entity keys. -/
def UPPER_MAP : List (String × String) :=
  [("vehicle_make", "VEHICLE_MAKE"),
   ("vehicle_model", "VEHICLE_MODEL"),
   ("vehicle_year", "VEHICLE_YEAR"),
   ("customer_name", "CUSTOMER_NAME"),
   ("policy_number", "POLICY_NUMBER"),
   ("email", "EMAIL"),
   ("phone_number", "PHONE_NUMBER"),
   ("vin", "VIN"),
   ("plan_selection", "PLAN_SELECTION")]

/-- Canonicalization of one entity key:
`UPPER_MAP.get(k.lower(), k.upper())`. -/
def canonKey (k : String) : String :=
  match UPPER_MAP.lookup (strLower k) with
  | some std => std
  | Option.none => strUpper k

/-- Python dict assignment `out[k] = v`: overwrite in place if the key
exists, else append (insertion order preserved). -/
def dictSet (d : List (String × Value)) (k : String) (v : Value) :
    List (String × Value) :=
  if d.any (fun p => p.1 = k) then
    d.map (fun p => if p.1 = k then (k, v) else p)
  else d ++ [(k, v)]

/-- `norm_entities_upper`: rebuild the entity dict with canonical keys. -/
def norm_entities_upper (entities : List (String × Value)) :
    List (String × Value) :=
  if entities.isEmpty then []
  else entities.foldl (fun out kv => dictSet out (canonKey kv.1) kv.2) []

/-- The key list of a dict (Python `d.keys()`). -/
def keysOf (d : List (String × Value)) : List String := d.map Prod.fst

/-- `memory_manager.coerce_bool`: bools pass through, ints are compared
with 0, strings are stripped, lowered and matched against
true/1/yes, everything else falls back to Python truthiness. -/
def coerce_bool (v : Value) : Bool :=
  match v with
  | Value.bool b => b
  | Value.int n => n != 0
  | Value.str s =>
    let t := strLower (pyStrip s)
    t = "true" || t = "1" || t = "yes"
  | Value.none => false
  | Value.dict d => !d.isEmpty

/-- The slice of the session dictionary read and written by
`MemoryManager.update_session_state`.  Flags are kept untyped (`Value`)
because the incoming state may carry them as strings or ints; the update
itself coerces them. -/
structure MemState where
  entities : List (String × Value)
  policy_number_provided : Value
  vehicle_details_provided : Value
  contact_info_provided : Value
  quote_provided : Value
  renovation_lead_notified : Value
  pricing_provided : Value
  pricing_confirmed : Value
  status : String
  conversation_summary : String

/-- The shape of `chosen_action` as far as the store reads it: the dict
may carry a customer-facing message under either key. -/
structure ChosenAction where
  message_to_customer : String
  message : String

/-- The summary-append step of `update_session_state`: add
User-colon and Agent-colon segments for a truthy user message and a
truthy action message. -/
def appendSummary (sum user_message : String) (a : Option ChosenAction) :
    String :=
  let sum1 := if user_message != "" then sum ++ "User: " ++ user_message ++ " | " else sum
  match a with
  | some act =>
    let msg := if act.message_to_customer != "" then act.message_to_customer
               else act.message
    if msg != "" then sum1 ++ "Agent: " ++ msg ++ " | " else sum1
  | Option.none => sum1

/-- The truncation step of `update_session_state`: keep only the trailing
`SUMMARY_MAX_CHARS` characters when the bound is exceeded
(Python slice `s[-SUMMARY_MAX_CHARS:]`). -/
def boundSummary (s : String) : String :=
  if s.length > SUMMARY_MAX_CHARS then
    ⟨s.data.drop (s.data.length - SUMMARY_MAX_CHARS)⟩
  else s

/-- The pure state transformation of `MemoryManager.update_session_state`
(the Redis/PostgreSQL persistence of the resulting state is I/O and has
no effect on the state value). -/
def update_session_state (state : MemState) (user_message : String)
    (chosen_action : Option ChosenAction) : MemState :=
  let ents := norm_entities_upper state.entities
  let s := { state with entities := ents }
  let s := if pyTruthy (dget ents "EMAIL") || pyTruthy (dget ents "PHONE_NUMBER") then
             { s with contact_info_provided := Value.bool true } else s
  let s := if pyTruthy (dget ents "POLICY_NUMBER") then
             { s with policy_number_provided := Value.bool true } else s
  let s := if pyTruthy (dget ents "VEHICLE_MAKE") && pyTruthy (dget ents "VEHICLE_MODEL")
              && pyTruthy (dget ents "VEHICLE_YEAR") then
             { s with vehicle_details_provided := Value.bool true } else s
  let s := { s with
    policy_number_provided := Value.bool (coerce_bool s.policy_number_provided),
    vehicle_details_provided := Value.bool (coerce_bool s.vehicle_details_provided),
    contact_info_provided := Value.bool (coerce_bool s.contact_info_provided),
    quote_provided := Value.bool (coerce_bool s.quote_provided),
    renovation_lead_notified := Value.bool (coerce_bool s.renovation_lead_notified),
    pricing_provided := Value.bool (coerce_bool s.pricing_provided),
    pricing_confirmed := Value.bool (coerce_bool s.pricing_confirmed) }
  let s := if s.status = "new_session" then { s with status := "active_session" } else s
  { s with conversation_summary :=
      boundSummary (appendSummary s.conversation_summary user_message chosen_action) }

end MemoryManager

namespace RuleEngine

/-- `rule_engine._coerce_bool`: same shape as the memory manager version
but with the extra accepted strings si and sí. -/
def coerce_bool (v : Value) : Bool :=
  match v with
  | Value.bool b => b
  | Value.int n => n != 0
  | Value.str s =>
    let t := strLower (pyStrip s)
    t = "true" || t = "1" || t = "yes" || t = "si" || t = "sí"
  | Value.none => false
  | Value.dict d => !d.isEmpty

/-- Accent folding of one character: models the NFD decomposition plus
combining-mark removal of `_norm` on the character range the engine's
token tables use. -/
def accentFold (c : Char) : Char :=
  match c with
  | 'á' => 'a' | 'é' => 'e' | 'í' => 'i' | 'ó' => 'o' | 'ú' => 'u'
  | 'ü' => 'u' | 'ñ' => 'n'
  | 'Á' => 'a' | 'É' => 'e' | 'Í' => 'i' | 'Ó' => 'o' | 'Ú' => 'u'
  | 'Ü' => 'u' | 'Ñ' => 'n'
  | c => c

/-- `_norm`: lower-case and strip accents. -/
def pyNorm (s : String) : String :=
  ⟨s.data.map (fun c => accentFold (asciiLower c))⟩

/-- `EXPIRED_TOKENS`. -/
def EXPIRED_TOKENS : List String :=
  ["vencio", "vencida", "vencido", "vencimiento", "expirada", "expirado",
   "expiro", "expirio", "caduca", "caducada", "caducado", "caducidad",
   "pasada", "ya paso", "se me paso", "ya vencio", "ya expiro"]

/-- `PRICE_TOKENS`. -/
def PRICE_TOKENS : List String :=
  ["precio", "costo", "cuanto", "cuánto", "cotizacion", "cotización",
   "cotizar", "quote"]

/-- `PAY_TOKENS`. -/
def PAY_TOKENS : List String :=
  ["pago", "financiamiento", "msi", "formas de pago", "como pagar",
   "promociones", "pagos"]

/-- `CLAIM_TOKENS`. -/
def CLAIM_TOKENS : List String :=
  ["reportar", "reclamar", "claim", "garantia", "garantía", "hacer valida",
   "hacer válida", "valida", "válida"]

/-- `PRICING_TEXT`. -/
def PRICING_TEXT : String :=
  "Precios de renovación de Garantía Extendida:\n" ++
  "- 12 meses: $9,900.00\n" ++
  "- 24 meses: $14,900.00\n" ++
  "- 36 meses: $21,900.00\n" ++
  "- 48 meses: $28,900.00\n\n" ++
  "¿Cuál le interesa (12, 24, 36 o 48)?"

/-- The session state as `evaluate_rules` sees it after its own entry
normalization (lines 236-239 of the source coerce the nine engine flags
to real booleans before anything else, so they are typed `Bool` here;
`current_intent = ""` encodes a missing/None/empty intent, and the
string-valued control fields use `""` for missing keys — every read the
engine performs on them is truthiness or comparison, which cannot tell
the two apart). -/
structure RuleState where
  pricing_provided : Bool
  pricing_confirmed : Bool
  renovation_lead_notified : Bool
  vehicle_info_acknowledged : Bool
  plan_selected : Bool
  conversation_ended : Bool
  lead_generation_complete : Bool
  expiry_captured : Bool
  services_up_to_date : Bool
  policy_number_provided : Bool
  vehicle_details_provided : Bool
  contact_info_provided : Bool
  quote_provided : Bool
  current_intent : String
  entities : List (String × Value)
  conversation_summary : String
  nlp_flags : List (String × Value)
  conversation_turn : Int
  context : String
  last_action_type : String
  last_prompt : String
  waiting_for : String
  last_action_turn : Int
  expiry_days : Value
  expiry_date : Value

/-- The observable part of an action dict: its type, the customer-facing
message and the `information_requested` marker (`""` when the key is
absent).  Auxiliary payload keys (`notification_data`,
`business_outcome`, acknowledgment booleans, ...) are record fields the
engine never reads back and no claim mentions; they are elided. -/
structure Action where
  action_type : String
  message_to_customer : String
  information_requested : String
  deriving DecidableEq

/-- `_services_ok`. -/
def servicesOk (state : RuleState) (nlp_flags : List (String × Value)) : Bool :=
  if state.services_up_to_date then true
  else if !nlp_flags.isEmpty && coerce_bool (dget nlp_flags "services_ok") then true
  else if state.waiting_for = "services_status" then
    (lastN 5 (pySplit (strLower state.conversation_summary))).any
      (fun w => w = "si" || w = "sí" || w = "yes")
  else false

/-- `_has_expiry_info`. -/
def hasExpiryInfo (entities : List (String × Value)) (state : RuleState) : Bool :=
  pyTruthy (dget entities "EXPIRY_DAYS") || pyTruthy (dget entities "EXPIRY_DATE")
    || state.expiry_captured

/-- `_expired_flag`. -/
def expiredFlag (summary_norm : String) (nlp_flags : List (String × Value)) : Bool :=
  (!nlp_flags.isEmpty && pyTruthy (dget nlp_flags "expired"))
    || EXPIRED_TOKENS.any (fun t => substrOf t summary_norm)

/-- `_ready_to_notify`: policy number plus some contact handle, and the
notification latch still unset. -/
def readyToNotify (entities : List (String × Value)) (state : RuleState) : Bool :=
  pyTruthy (dget entities "POLICY_NUMBER")
    && (pyTruthy (dget entities "CUSTOMER_NAME") || pyTruthy (dget entities "EMAIL")
        || pyTruthy (dget entities "PHONE_NUMBER"))
    && !state.renovation_lead_notified

/-- `_get_missing_info`. -/
def getMissingInfo (entities : List (String × Value)) (state : RuleState) : String :=
  if !pyTruthy (dget entities "POLICY_NUMBER") then "policy_number"
  else if !(pyTruthy (dget entities "VEHICLE_MAKE")
            && pyTruthy (dget entities "VEHICLE_MODEL")) then "vehicle_info"
  else if !(pyTruthy (dget entities "CUSTOMER_NAME") || pyTruthy (dget entities "EMAIL")
            || pyTruthy (dget entities "PHONE_NUMBER")) then "contact_info"
  else "complete"

/-- `_get_conversation_phase`. -/
def getConversationPhase (s : RuleState) : String :=
  if s.conversation_ended then "ended"
  else if s.lead_generation_complete then "completed"
  else if s.context = "expired_policy_flow" then
    if !hasExpiryInfo [] s || !servicesOk s [] then "expired_verification"
    else "expired_data_collection"
  else if s.context = "expired_data_collection" then "expired_data_collection"
  else if s.context = "pricing_flow" then
    if s.pricing_confirmed then "post_pricing_collection" else "pricing_discussion"
  else if s.last_action_type = "ask_for_policy_number"
          || s.last_action_type = "ask_for_vehicle_info"
          || s.last_action_type = "request_contact_info" then "data_collection"
  else "initial"

/-- `_in_data_collection`. -/
def inDataCollection (state : RuleState) : Bool :=
  let phase := getConversationPhase state
  phase = "data_collection" || phase = "expired_data_collection"
    || phase = "post_pricing_collection"

/-- `_update_state_and_return`: record the action type and turn, switch
context when requested, and remember the prompt when the action requests
information.  (Every action literal in the source carries an
`action_type` key, so the presence test is always true.) -/
def updateAndReturn (state : RuleState) (action : Action)
    (newContext : Option String) : Option Action × RuleState :=
  let s := { state with last_action_type := action.action_type,
                        last_action_turn := state.conversation_turn }
  let s := match newContext with
           | some c => { s with context := c }
           | Option.none => s
  let s := if action.information_requested != "" then
             { s with last_prompt := action.message_to_customer,
                      waiting_for := action.information_requested }
           else s
  (some action, s)

/-- The Greeting reset loop over `reset_keys`: booleans go to `False`,
other present values go to `""` (an absent value stays absent; both are
falsy and the engine only ever tests these fields for truthiness). -/
def resetVal (v : Value) : Value :=
  match v with
  | Value.none => Value.none
  | Value.bool _ => Value.bool false
  | _ => Value.str ""

/-- State reset performed by the Greeting rule: all transient flags and
prompts are cleared; the conversation summary, the entities and the
derived store flags are untouched. -/
def greetingReset (s : RuleState) : RuleState :=
  { s with renovation_lead_notified := false, lead_generation_complete := false,
           vehicle_info_acknowledged := false, pricing_provided := false,
           pricing_confirmed := false, plan_selected := false,
           last_action_type := "", last_prompt := "", waiting_for := "",
           services_up_to_date := false, expiry_captured := false,
           expiry_days := resetVal s.expiry_days,
           expiry_date := resetVal s.expiry_date }

/-- `_build_lead_notification` (the `notification_data` payload record is
elided, see `Action`). -/
def buildLeadNotification (state : RuleState)
    (entities : List (String × Value)) : Action :=
  let customer_name := dgetD entities "CUSTOMER_NAME" (Value.str "Usuario")
  { action_type := "notify_human_renovation_lead",
    message_to_customer :=
      "Perfecto, " ++ pyStr customer_name ++ ". Tengo toda la información necesaria. " ++
      "Un agente especializado se pondrá en contacto con usted muy pronto para finalizar su renovación.",
    information_requested := "" }

/-- `_classify_intent_with_context`: context-aware refinement of the NLP
intent.  Each Python early return becomes a `some`; the fall-throughs of
the nested if/elif chains become `Option.none` and continue below. -/
def classifyIntentWithContext (current_intent : String)
    (entities : List (String × Value)) (state : RuleState)
    (summary_norm : String) : String :=
  let waiting_for := state.waiting_for
  let step1 : Option String :=
    if waiting_for != "" &&
       (current_intent = "Unknown" || current_intent = "ProvideVehicleInfo" ||
        current_intent = "ProvideContactInfo" || current_intent = "QueryPolicyDetails") then
      if waiting_for = "policy_number" && pyTruthy (dget entities "POLICY_NUMBER") then
        some "QueryPolicyDetails"
      else if waiting_for = "vehicle_details" &&
          (pyTruthy (dget entities "VEHICLE_MAKE") || pyTruthy (dget entities "VEHICLE_MODEL")) then
        some "ProvideVehicleInfo"
      else if waiting_for = "contact_info" &&
          (pyTruthy (dget entities "CUSTOMER_NAME") || pyTruthy (dget entities "EMAIL")
            || pyTruthy (dget entities "PHONE_NUMBER")) then
        some "ProvideContactInfo"
      else if waiting_for = "expiry_date" || waiting_for = "services_status" then
        some "ExpiredPolicy"
      else Option.none
    else Option.none
  match step1 with
  | some r => r
  | Option.none =>
  let phase := getConversationPhase state
  let step2 : Option String :=
    if phase = "pricing_discussion" then
      if current_intent = "Unknown" && pyTruthy (dget entities "PLAN_SELECTION") then
        some "ConfirmRenovation"
      else if current_intent = "GetQuote" || current_intent = "RenovatePolicy" then
        some "ConfirmRenovation"
      else Option.none
    else Option.none
  match step2 with
  | some r => r
  | Option.none =>
  let step3 : Option String :=
    if phase = "data_collection" && current_intent = "Unknown" then
      let missing := getMissingInfo entities state
      if missing = "policy_number" && pyTruthy (dget entities "POLICY_NUMBER") then
        some "QueryPolicyDetails"
      else if missing = "vehicle_info" &&
          (pyTruthy (dget entities "VEHICLE_MAKE") || pyTruthy (dget entities "VEHICLE_MODEL")) then
        some "ProvideVehicleInfo"
      else if missing = "contact_info" &&
          (pyTruthy (dget entities "CUSTOMER_NAME") || pyTruthy (dget entities "EMAIL")
            || pyTruthy (dget entities "PHONE_NUMBER")) then
        some "ProvideContactInfo"
      else Option.none
    else Option.none
  match step3 with
  | some r => r
  | Option.none =>
    if (current_intent = "Unknown" || current_intent = "QueryPolicyDetails")
        && expiredFlag summary_norm [] then "ExpiredPolicy"
    else current_intent

/-- Action of the completed-phase thanks/bye branch. -/
def endAfterCompletion : Action :=
  { action_type := "end_conversation_after_completion",
    message_to_customer := "¡Ha sido un placer ayudarle! ¡Que tenga excelente día!",
    information_requested := "" }

/-- Bye with captured data. -/
def byeWithData : Action :=
  { action_type := "end_conversation_with_followup",
    message_to_customer :=
      "¡Hasta pronto! Tengo guardada su información para cuando desee continuar " ++
      "con la renovación. No dude en contactarnos cuando guste. ¡Que tenga buen día!",
    information_requested := "" }

/-- Plain Bye. -/
def byePlain : Action :=
  { action_type := "end_conversation",
    message_to_customer :=
      "¡Hasta pronto! Si necesita ayuda con la renovación de su garantía extendida " ++
      "en el futuro, estaré aquí para ayudarle. ¡Que tenga buen día!",
    information_requested := "" }

/-- Thanks after completion (dead branch in the source, mirrored). -/
def endAfterThanks : Action :=
  { action_type := "end_conversation_after_thanks",
    message_to_customer :=
      "¡De nada! Ha sido un placer ayudarle. Un agente se pondrá en contacto " ++
      "con usted muy pronto. ¡Que tenga excelente día!",
    information_requested := "" }

/-- Generic thanks acknowledgment. -/
def acknowledgeThanks : Action :=
  { action_type := "acknowledge_thanks",
    message_to_customer :=
      "¡De nada! Estoy aquí para ayudarle con la renovación de su garantía extendida. " ++
      "¿En qué más le puedo asistir?",
    information_requested := "" }

/-- Disagreement ending. -/
def disagreementEnd : Action :=
  { action_type := "end_conversation",
    message_to_customer :=
      "Entiendo. Si cambia de opinión sobre la renovación de su garantía, " ++
      "estaré aquí para ayudarle. ¡Que tenga buen día!",
    information_requested := "" }

/-- Cancellation. -/
def cancelProcess : Action :=
  { action_type := "cancel_process",
    message_to_customer :=
      "Entiendo que desea cancelar el proceso de renovación. El proceso ha sido cancelado. " ++
      "Si necesita ayuda en el futuro, no dude en contactarnos.",
    information_requested := "" }

/-- Greeting response. -/
def greetAndOffer : Action :=
  { action_type := "greet_and_offer_service",
    message_to_customer :=
      "¡Hola! Soy su asistente de GarantiPLUS para renovaciones de garantía extendida. " ++
      "¿Le ayudo con la renovación de su garantía?",
    information_requested := "" }

/-- Expired flow step 1. -/
def askExpiryDate : Action :=
  { action_type := "ask_expiry_date",
    message_to_customer :=
      "Entiendo que su garantía ya venció. Para ayudarle con la renovación, " ++
      "¿en qué fecha exacta venció? (por ejemplo, 2025-08-11 o 'ayer')",
    information_requested := "expiry_date" }

/-- Expired flow step 2. -/
def askServicesStatus : Action :=
  { action_type := "ask_services_status",
    message_to_customer :=
      "Perfecto. Para proceder con la renovación de una garantía vencida, " ++
      "¿tiene los servicios de mantenimiento al día?",
    information_requested := "services_status" }

/-- Expired flow: ask for the policy number. -/
def askPolicyExpired : Action :=
  { action_type := "ask_for_policy_number",
    message_to_customer :=
      "Excelente, podemos proceder con la renovación. " ++
      "¿Cuál es su número de póliza?",
    information_requested := "policy_number" }

/-- Expired flow: ask for the vehicle. -/
def askVehicleExpired : Action :=
  { action_type := "ask_for_vehicle_info",
    message_to_customer :=
      "Gracias. Ahora, ¿cuál es la marca, modelo y año de su vehículo?",
    information_requested := "vehicle_details" }

/-- Expired flow: ask for contact data. -/
def askContactExpired : Action :=
  { action_type := "request_contact_info",
    message_to_customer :=
      "Perfecto. Para finalizar, ¿cuál es su nombre completo y teléfono?",
    information_requested := "contact_info" }

/-- Plan selection acknowledgment (pricing flow). -/
def planSelectedAction (sel : Value) : Action :=
  { action_type := "request_contact_info",
    message_to_customer :=
      "¡Excelente elección! La cobertura de " ++ pyStr sel ++ " meses es una gran opción. " ++
      "Para continuar con su cotización y que un agente se ponga en contacto, " ++
      "¿cuál es su nombre completo y teléfono?",
    information_requested := "contact_info" }

/-- Pricing confirmation follow-up. -/
def confirmPricingContact : Action :=
  { action_type := "request_contact_info",
    message_to_customer :=
      "¡Perfecto! Para continuar con su cotización y que un agente se ponga en contacto, " ++
      "¿cuál es su nombre completo y teléfono?",
    information_requested := "contact_info" }

/-- Generic assistant explanation (Confusion outside data collection). -/
def explainAssistant : Action :=
  { action_type := "explain",
    message_to_customer :=
      "Soy su asistente para renovar garantías extendidas de autos. " ++
      "¿Le puedo ayudar con la renovación de su garantía?",
    information_requested := "" }

/-- Pricing clarification. -/
def clarifyPricingOptions : Action :=
  { action_type := "clarify_pricing_options",
    message_to_customer :=
      "Tenemos 4 coberturas: 12, 24, 36 y 48 meses. " ++
      "La de 12 meses cuesta $9,900.00, la de 24 meses $14,900.00, " ++
      "la de 36 meses $21,900.00 y la de 48 meses $28,900.00. " ++
      "¿Cuál prefiere?",
    information_requested := "" }

/-- Product explanation (AskForClarification outside data collection). -/
def explainProduct : Action :=
  { action_type := "explain",
    message_to_customer :=
      "La renovación de garantía extendida protege su auto contra fallas mecánicas. " ++
      "Necesito algunos datos para generar una cotización. ¿Le interesa?",
    information_requested := "" }

/-- RenovatePolicy: ask for the policy number. -/
def askPolicyRenovate : Action :=
  { action_type := "ask_for_policy_number",
    message_to_customer :=
      "Perfecto, le ayudo con la renovación de su garantía. Para comenzar, ¿cuál es su número de póliza?",
    information_requested := "policy_number" }

/-- Ask for the vehicle, acknowledging the captured policy number (the
RenovatePolicy and QueryPolicyDetails branches build the same observable
action; the latter additionally carries a `policy_acknowledged` payload
key, elided like the other payload keys). -/
def askVehicleWithPolicy (policy : Value) : Action :=
  { action_type := "ask_for_vehicle_info",
    message_to_customer :=
      "Excelente, tengo su póliza " ++ pyStr policy ++
      ". Ahora necesito los datos de su vehículo: ¿cuál es la marca, modelo y año?",
    information_requested := "vehicle_details" }

/-- RenovatePolicy: ask for contact data. -/
def askContactRenovate : Action :=
  { action_type := "request_contact_info",
    message_to_customer :=
      "Perfecto. Para finalizar y que un agente se ponga en contacto con usted, ¿cuál es su nombre completo?",
    information_requested := "contact_info" }

/-- Vehicle acknowledgment asking for contact data. -/
def vehicleAckContact (desc : String) : Action :=
  { action_type := "request_contact_info",
    message_to_customer :=
      "Perfecto, " ++ desc ++
      ". Para finalizar y que un agente se ponga en contacto con usted, ¿cuál es su nombre completo?",
    information_requested := "customer_name" }

/-- ConfirmRenovation: ask for the policy number. -/
def confirmAskPolicy : Action :=
  { action_type := "ask_for_policy_number",
    message_to_customer :=
      "Excelente. ¿Cuál es su número de póliza para proceder con la renovación?",
    information_requested := "policy_number" }

/-- ConfirmRenovation: ask for the vehicle. -/
def confirmAskVehicle : Action :=
  { action_type := "ask_for_vehicle_info",
    message_to_customer :=
      "Perfecto. ¿Podría proporcionarme la marca, modelo y año de su vehículo?",
    information_requested := "vehicle_details" }

/-- ConfirmRenovation: ask for contact data. -/
def confirmAskContact : Action :=
  { action_type := "request_contact_info",
    message_to_customer :=
      "Excelente. Para finalizar, ¿cuál es su nombre completo o un número de contacto?",
    information_requested := "contact_info" }

/-- Payment FAQ answer. -/
def paymentInfoAction : Action :=
  { action_type := "provide_payment_info",
    message_to_customer :=
      "Las opciones de pago disponibles son:\n\n" ++
      "• Tarjeta de crédito o débito\n" ++
      "• Transferencia bancaria\n" ++
      "• Promoción: hasta 12 Meses Sin Intereses (MSI)\n\n" ++
      "¿Cuál prefiere?",
    information_requested := "" }

/-- Pricing FAQ answer. -/
def pricingInfoAction : Action :=
  { action_type := "provide_pricing_info",
    message_to_customer := PRICING_TEXT,
    information_requested := "" }

/-- Claims FAQ answer. -/
def claimsInfoAction : Action :=
  { action_type := "provide_claims_info",
    message_to_customer :=
      "Para hacer válida su garantía o reportar un problema:\n\n" ++
      "Call Center: 800 GARANTI (4272684)\n" ++
      "WhatsApp: 4432441212\n\n" ++
      "Nuestro equipo de atención está disponible para ayudarle con cualquier reclamo.",
    information_requested := "" }

/-- Unknown intent with a policy number but no vehicle. -/
def smartAskVehicle (policy : Value) : Action :=
  { action_type := "ask_for_vehicle_info",
    message_to_customer :=
      "Veo que me proporcionó el número de póliza " ++ pyStr policy ++
      ". Para ayudarle con la renovación, ¿cuál es la marca, modelo y año de su vehículo?",
    information_requested := "vehicle_details" }

/-- Unknown intent with vehicle data but no policy number. -/
def smartAskPolicy : Action :=
  { action_type := "ask_for_policy_number",
    message_to_customer :=
      "Veo que me proporcionó información del vehículo. Para la renovación de garantía, también necesito su número de póliza. ¿Cuál es?",
    information_requested := "policy_number" }

/-- Unknown intent with contact data, policy still missing. -/
def contactToPolicy : Action :=
  { action_type := "ask_for_policy_number",
    message_to_customer :=
      "Gracias por su información de contacto. Para ayudarle con la renovación, ¿cuál es su número de póliza?",
    information_requested := "policy_number" }

/-- Unknown intent with contact data, vehicle still missing. -/
def contactToVehicle : Action :=
  { action_type := "ask_for_vehicle_info",
    message_to_customer :=
      "Perfecto. Ahora necesito los datos de su vehículo: ¿cuál es la marca, modelo y año?",
    information_requested := "vehicle_details" }

/-- Final clarification of the Unknown handler. -/
def clarifyIntentAction : Action :=
  { action_type := "clarify_intent",
    message_to_customer :=
      "Soy especialista en renovaciones de garantía extendida. " ++
      "¿Le interesa renovar su garantía o necesita información sobre nuestros servicios?",
    information_requested := "" }

/-- The ProvideContactInfo rule (lines 582-587): the second notification
site — fires only when `_ready_to_notify` holds (which includes the
not-yet-notified latch), latching both flags. -/
def contactNotifyStep (s : RuleState) (intent : String)
    (entities : List (String × Value)) : Option (Option Action × RuleState) :=
  if intent = "ProvideContactInfo" && readyToNotify entities s then
    let s := { s with renovation_lead_notified := true, lead_generation_complete := true }
    some (updateAndReturn s (buildLeadNotification s entities) (some "completed"))
  else Option.none

/-- The ConfirmRenovation collection branches (lines 590-613); `phase`
is the stale phase computed at the top of `evaluate_rules`. -/
def confirmStep (s : RuleState) (intent phase : String)
    (entities : List (String × Value)) : Option (Option Action × RuleState) :=
  if intent = "ConfirmRenovation"
      && !(phase = "pricing_discussion" || phase = "post_pricing_collection") then
    if getMissingInfo entities s = "policy_number" then
      some (updateAndReturn s confirmAskPolicy (some "data_collection"))
    else if getMissingInfo entities s = "vehicle_info" then
      some (updateAndReturn s confirmAskVehicle (some "data_collection"))
    else if getMissingInfo entities s = "contact_info" then
      some (updateAndReturn s confirmAskContact (some "data_collection"))
    else Option.none
  else Option.none

/-- The FAQ responders (lines 615-655): payment, pricing (latching
`pricing_provided`), claims. -/
def faqStep (s : RuleState) (intent phase summary_norm : String)
    (entities : List (String × Value)) : Option (Option Action × RuleState) :=
  if PAY_TOKENS.any (fun t => substrOf t summary_norm) && !inDataCollection s then
    some (updateAndReturn s paymentInfoAction Option.none)
  else if (intent = "GetQuote" || PRICE_TOKENS.any (fun t => substrOf t summary_norm))
      && !s.pricing_provided && !s.pricing_confirmed && !inDataCollection s
      && phase != "pricing_discussion" then
    let s := { s with pricing_provided := true }
    some (updateAndReturn s pricingInfoAction (some "pricing_flow"))
  else if (intent = "QueryPolicyDetails"
        && CLAIM_TOKENS.any (fun t => substrOf t summary_norm))
      || (["reportar", "hacer valida", "reclamacion", "reclamación"].any
            (fun t => substrOf t summary_norm)) then
    some (updateAndReturn s claimsInfoAction Option.none)
  else Option.none

/-- The Unknown-intent heuristics (lines 659-701): always returns an
action. -/
def unknownStep (s : RuleState) (entities : List (String × Value)) :
    Option Action × RuleState :=
  if pyTruthy (dget entities "POLICY_NUMBER") && !pyTruthy (dget entities "VEHICLE_MAKE") then
    updateAndReturn s (smartAskVehicle (dget entities "POLICY_NUMBER")) (some "data_collection")
  else if (pyTruthy (dget entities "VEHICLE_MAKE") || pyTruthy (dget entities "VEHICLE_MODEL"))
      && !pyTruthy (dget entities "POLICY_NUMBER") then
    updateAndReturn s smartAskPolicy (some "data_collection")
  else if pyTruthy (dget entities "CUSTOMER_NAME") || pyTruthy (dget entities "EMAIL")
      || pyTruthy (dget entities "PHONE_NUMBER") then
    if getMissingInfo entities s = "policy_number" then
      updateAndReturn s contactToPolicy (some "data_collection")
    else if getMissingInfo entities s = "vehicle_info" then
      updateAndReturn s contactToVehicle (some "data_collection")
    else updateAndReturn s clarifyIntentAction Option.none
  else updateAndReturn s clarifyIntentAction Option.none

/-- Tail of `evaluate_rules` from the ProvideContactInfo rule (line 582)
to the fallback `return None`: the second notification site, the
ConfirmRenovation collection branches, the FAQ responders, the
Unknown-intent heuristics, then `return None` (defer to the policy
module). -/
def evalTail2 (s : RuleState) (intent phase summary_norm : String)
    (entities _nlp_flags : List (String × Value)) : Option Action × RuleState :=
  match contactNotifyStep s intent entities with
  | some r => r
  | Option.none =>
  match confirmStep s intent phase entities with
  | some r => r
  | Option.none =>
  match faqStep s intent phase summary_norm entities with
  | some r => r
  | Option.none =>
  if intent = "Unknown" then unknownStep s entities
  else (Option.none, s)

/-- The ProvideVehicleInfo block (lines 567-580): may latch
`vehicle_info_acknowledged` and then either return an action (`inl`) or
fall through with the mutated state (`inr`). -/
def vehicleStep (s : RuleState) (intent : String)
    (entities : List (String × Value)) :
    Sum (Option Action × RuleState) RuleState :=
  if intent = "ProvideVehicleInfo" &&
      (pyTruthy (dget entities "VEHICLE_MAKE") || pyTruthy (dget entities "VEHICLE_MODEL")) then
    if !s.vehicle_info_acknowledged then
      let s := { s with vehicle_info_acknowledged := true }
      let parts := [dgetD entities "VEHICLE_MAKE" (Value.str ""),
                    dgetD entities "VEHICLE_MODEL" (Value.str ""),
                    dgetD entities "VEHICLE_YEAR" (Value.str "")]
      let desc0 := pyStrip (joinSpace ((parts.filter pyTruthy).map pyStr))
      let desc := if desc0 != "" then desc0 else "su vehículo"
      if getMissingInfo entities s = "contact_info" then
        Sum.inl (updateAndReturn s (vehicleAckContact desc) (some "data_collection"))
      else Sum.inr s
    else Sum.inr s
  else Sum.inr s

/-- The pricing-flow branches (lines 454-480): plan selection and the
pricing confirmation, both latching; `inr` means neither fired. -/
def pricingFlowStep (s : RuleState) (intent phase : String)
    (entities : List (String × Value)) : Option (Option Action × RuleState) :=
  if phase = "pricing_discussion" && pyTruthy (dget entities "PLAN_SELECTION")
      && !s.plan_selected then
    let sel := dget entities "PLAN_SELECTION"
    let s := { s with plan_selected := true }
    some (updateAndReturn s (planSelectedAction sel) (some "post_pricing_collection"))
  else if phase = "pricing_discussion" && intent = "ConfirmRenovation"
      && !s.pricing_confirmed then
    let s := { s with pricing_confirmed := true }
    some (updateAndReturn s confirmPricingContact (some "post_pricing_collection"))
  else Option.none

/-- The clarification handlers (lines 484-528): Confusion and
AskForClarification re-issue the last prompt inside data collection. -/
def clarifyStep (s : RuleState) (intent phase : String) :
    Option (Option Action × RuleState) :=
  if intent = "Confusion" then
    if inDataCollection s then
      let prompt := if s.last_prompt != "" then s.last_prompt
                    else "Para continuar, ¿cuál es su número de póliza?"
      let at0 := if s.last_action_type != "" then s.last_action_type
                 else "ask_for_policy_number"
      some (updateAndReturn s { action_type := at0,
                                message_to_customer := "No se preocupe. " ++ prompt,
                                information_requested := "" } Option.none)
    else some (updateAndReturn s explainAssistant Option.none)
  else if intent = "AskForClarification" then
    if phase = "pricing_discussion" then
      some (updateAndReturn s clarifyPricingOptions Option.none)
    else if inDataCollection s then
      let prompt := if s.last_prompt != "" then s.last_prompt
                    else "Para continuar, ¿cuál es su número de póliza?"
      let at0 := if s.last_action_type != "" then s.last_action_type
                 else "ask_for_policy_number"
      some (updateAndReturn s { action_type := at0,
                                message_to_customer := "Con gusto le explico. " ++ prompt,
                                information_requested := "" } Option.none)
    else some (updateAndReturn s explainProduct Option.none)
  else Option.none

/-- The standard collection sequence (lines 533-565): RenovatePolicy and
the QueryPolicyDetails acknowledgment. -/
def collectStep (s : RuleState) (intent : String)
    (entities : List (String × Value)) : Option (Option Action × RuleState) :=
  if intent = "RenovatePolicy" && getMissingInfo entities s = "policy_number" then
    some (updateAndReturn s askPolicyRenovate (some "data_collection"))
  else if intent = "RenovatePolicy" && getMissingInfo entities s = "vehicle_info" then
    some (updateAndReturn s (askVehicleWithPolicy (dget entities "POLICY_NUMBER"))
      (some "data_collection"))
  else if intent = "RenovatePolicy" && getMissingInfo entities s = "contact_info" then
    some (updateAndReturn s askContactRenovate (some "data_collection"))
  else if intent = "QueryPolicyDetails" && pyTruthy (dget entities "POLICY_NUMBER")
      && getMissingInfo entities s = "vehicle_info" then
    some (updateAndReturn s (askVehicleWithPolicy (dget entities "POLICY_NUMBER"))
      (some "data_collection"))
  else Option.none

/-- Tail of `evaluate_rules` from the pricing flow (line 454) down:
pricing, clarification handlers, the standard collection sequence, then
`vehicleStep` and `evalTail2`. -/
def evalTail (s : RuleState) (intent phase summary_norm : String)
    (entities nlp_flags : List (String × Value)) : Option Action × RuleState :=
  match pricingFlowStep s intent phase entities with
  | some r => r
  | Option.none =>
  match clarifyStep s intent phase with
  | some r => r
  | Option.none =>
  match collectStep s intent entities with
  | some r => r
  | Option.none =>
  match vehicleStep s intent entities with
  | Sum.inl r => r
  | Sum.inr s2 => evalTail2 s2 intent phase summary_norm entities nlp_flags

/-- Signal-capture half of the expired-policy flow (lines 382-401):
default the context, absorb the NLP services flag, the si/sí services
confirmation and the expiry entities into the state. -/
def expiredCapture (s : RuleState) (intent summary_norm : String)
    (entities nlp_flags : List (String × Value)) : RuleState :=
  let s := if s.context = "" then { s with context := "expired_policy_flow" } else s
  let s := if pyTruthy (dget nlp_flags "services_ok") then
             { s with services_up_to_date := true } else s
  let s := if s.waiting_for = "services_status" &&
              (intent = "ConfirmRenovation" || (pySplit summary_norm).contains "si"
                || (pySplit summary_norm).contains "sí") then
             { s with services_up_to_date := true, waiting_for := "" } else s
  if !isNone (dget entities "EXPIRY_DAYS")
      || pyTruthy (dget entities "EXPIRY_DATE") then
    let s2 := { s with expiry_captured := true,
                       expiry_days := dget entities "EXPIRY_DAYS",
                       expiry_date := dget entities "EXPIRY_DATE" }
    if s2.waiting_for = "expiry_date" then { s2 with waiting_for := "" } else s2
  else s

/-- The expired-policy flow (lines 381-450): capture signals, then the
three stepwise questions; `inl` is a Python return, `inr` falls through
to the pricing flow with the mutated state. -/
def expiredBlock (s0 : RuleState) (intent summary_norm : String)
    (entities nlp_flags : List (String × Value)) :
    Sum (Option Action × RuleState) RuleState :=
  let s := expiredCapture s0 intent summary_norm entities nlp_flags
  if !hasExpiryInfo entities s && s.waiting_for != "services_status" then
    Sum.inl (updateAndReturn s askExpiryDate (some "expired_policy_flow"))
  else if !servicesOk s nlp_flags && s.waiting_for != "expiry_date" then
    Sum.inl (updateAndReturn s askServicesStatus (some "expired_policy_flow"))
  else if hasExpiryInfo entities s && servicesOk s nlp_flags then
    let s := { s with context := "expired_data_collection" }
    if getMissingInfo entities s = "policy_number" then
      Sum.inl (updateAndReturn s askPolicyExpired (some "expired_data_collection"))
    else if getMissingInfo entities s = "vehicle_info" then
      Sum.inl (updateAndReturn s askVehicleExpired (some "expired_data_collection"))
    else if getMissingInfo entities s = "contact_info" then
      Sum.inl (updateAndReturn s askContactExpired (some "expired_data_collection"))
    else Sum.inr s
  else Sum.inr s

/-- The terminal short-circuit (lines 260-271): at phase ended the
engine returns None unconditionally; at phase completed it returns the
closing action only for ThankYou/Bye and None otherwise. -/
def terminalStep (s : RuleState) (intent phase : String) :
    Option (Option Action × RuleState) :=
  if phase = "ended" then some (Option.none, s)
  else if phase = "completed" then
    if intent = "ThankYou" || intent = "Bye" then
      some (updateAndReturn s endAfterCompletion Option.none)
    else some (Option.none, s)
  else Option.none

/-- The conversational meta-intents (lines 282-377): Bye, ThankYou,
Disagreement, CancelRenovation and the Greeting reset. -/
def metaStep (s : RuleState) (intent phase : String)
    (entities : List (String × Value)) :
    Option (Option Action × RuleState) :=
  if intent = "Bye" then
    let s := { s with conversation_ended := true }
    if pyTruthy (dget entities "POLICY_NUMBER") || pyTruthy (dget entities "CUSTOMER_NAME") then
      some (updateAndReturn s byeWithData (some "ended"))
    else some (updateAndReturn s byePlain (some "ended"))
  else if intent = "ThankYou" then
    if phase = "completed" then
      let s := { s with conversation_ended := true }
      some (updateAndReturn s endAfterThanks (some "ended"))
    else if inDataCollection s then
      let prompt := if s.last_prompt != "" then s.last_prompt
                    else "Para continuar, ¿cuál es su número de póliza?"
      let at0 := if s.last_action_type != "" then s.last_action_type
                 else "ask_for_policy_number"
      some (updateAndReturn s { action_type := at0,
                                message_to_customer := "¡De nada! " ++ prompt,
                                information_requested := "" } Option.none)
    else some (updateAndReturn s acknowledgeThanks Option.none)
  else if intent = "Disagreement" then
    let s := { s with conversation_ended := true }
    some (updateAndReturn s disagreementEnd (some "ended"))
  else if intent = "CancelRenovation" then
    let s := { s with conversation_ended := true }
    some (updateAndReturn s cancelProcess (some "ended"))
  else if intent = "Greeting" then
    some (updateAndReturn (greetingReset s) greetAndOffer (some "initial"))
  else Option.none

/-- The ordered guard chain of `evaluate_rules` after percept extraction
and the turn increment: terminal short-circuit, the notify rule, the
meta-intents, the expired-policy flow, then the shared tail. -/
def evaluateCore (s : RuleState) (intent phase summary_norm : String)
    (entities nlp_flags : List (String × Value)) : Option Action × RuleState :=
  match terminalStep s intent phase with
  | some r => r
  | Option.none =>
  if readyToNotify entities s && !s.renovation_lead_notified then
    let s := { s with renovation_lead_notified := true, lead_generation_complete := true }
    updateAndReturn s (buildLeadNotification s entities) (some "completed")
  else match metaStep s intent phase entities with
  | some r => r
  | Option.none =>
  if intent = "ExpiredPolicy" || expiredFlag summary_norm nlp_flags
      || phase = "expired_verification" || phase = "expired_data_collection" then
    match expiredBlock s intent summary_norm entities nlp_flags with
    | Sum.inl r => r
    | Sum.inr s2 => evalTail s2 intent phase summary_norm entities nlp_flags
  else evalTail s intent phase summary_norm entities nlp_flags

/-- `RuleEngine.evaluate_rules`: the entry flag-coercion loop (lines
236-239) is the identity on this typed state; the percept extraction and
the turn increment are mirrored literally, then the guard chain runs. -/
def evaluate (s0 : RuleState) : Option Action × RuleState :=
  let current_intent := if s0.current_intent != "" then s0.current_intent else "Unknown"
  let entities := s0.entities
  let summary_norm := pyNorm s0.conversation_summary
  let nlp_flags := s0.nlp_flags
  let s := { s0 with conversation_turn := s0.conversation_turn + 1 }
  let phase := getConversationPhase s
  let intent := classifyIntentWithContext current_intent entities s summary_norm
  evaluateCore s intent phase summary_norm entities nlp_flags

/-- State projection of an expired-block / vehicle-step result
(returned state for `inl`, fall-through state for `inr`). -/
def blockState : Sum (Option Action × RuleState) RuleState → RuleState
  | Sum.inl r => r.2
  | Sum.inr s => s

/-- The default session state produced by a `Load` miss
(`memory_manager.get_session_state` default template; fields the
template omits are absent, i.e. falsy). -/
def defaultState : RuleState :=
  { pricing_provided := false, pricing_confirmed := false,
    renovation_lead_notified := false, vehicle_info_acknowledged := false,
    plan_selected := false, conversation_ended := false,
    lead_generation_complete := false, expiry_captured := false,
    services_up_to_date := false, policy_number_provided := false,
    vehicle_details_provided := false, contact_info_provided := false,
    quote_provided := false, current_intent := "", entities := [],
    conversation_summary := "", nlp_flags := [], conversation_turn := 0,
    context := "", last_action_type := "", last_prompt := "",
    waiting_for := "", last_action_turn := 0,
    expiry_days := Value.none, expiry_date := Value.none }

/-- One step of the session lifetime as the orchestrator
(`decision_engine.decide`) drives it: either a percept merge — which only
(re)writes the intent, the entities, the nlp flags, the transcript and
the store-derived progress flags, never the engine's latch flags — or an
`evaluate_rules` call.  The percept constructor over-approximates the
real merge by allowing arbitrary values for those fields. -/
inductive BrainStep : RuleState → RuleState → Prop where
  | percept (s : RuleState) (intent : String)
      (ents nf : List (String × Value)) (summary : String) (p v c q : Bool) :
      BrainStep s { s with
        current_intent := intent, entities := ents, nlp_flags := nf,
        conversation_summary := summary, policy_number_provided := p,
        vehicle_details_provided := v, contact_info_provided := c,
        quote_provided := q }
  | evalStep (s : RuleState) : BrainStep s (evaluate s).2

/-- A session state reachable from the fresh default state. -/
def ReachableState (s : RuleState) : Prop :=
  Relation.ReflTransGen BrainStep defaultState s

/-- The inductive invariant behind the notification latch: whenever the
notified flag is set, lead generation is recorded complete (both are
only ever set together). -/
def latchInv (s : RuleState) : Prop :=
  s.renovation_lead_notified = true → s.lead_generation_complete = true

/-- C2 counterexample state: the notify latch is set, but a stale
`last_action_type` survives in a data-collection phase
(`context = pricing_flow` with pricing confirmed). -/
def echoState : RuleState :=
  { defaultState with
    renovation_lead_notified := true,
    pricing_confirmed := true,
    context := "pricing_flow",
    last_action_type := "notify_human_renovation_lead",
    current_intent := "Confusion" }

/-- C3 counterexample state: ended phase with a courtesy close-out. -/
def endedThanksState : RuleState :=
  { defaultState with
    conversation_ended := true,
    current_intent := "ThankYou" }

/-- C8 counterexample state: mid-flow (data collection) with the derived
progress flag set, receiving a Greeting. -/
def midFlowGreetingState : RuleState :=
  { defaultState with
    policy_number_provided := true,
    last_action_type := "ask_for_policy_number",
    conversation_summary := "User: hola | ",
    current_intent := "Greeting" }

/-- A percept merge of the default state carrying a hot lead
(policy number plus customer name); used to exhibit reachability. -/
def hotLeadState : RuleState :=
  { defaultState with
    current_intent := "ProvideContactInfo",
    entities := [("POLICY_NUMBER", Value.str "P123"),
                 ("CUSTOMER_NAME", Value.str "Juan")] }

/-- The state left after evaluating the hot lead: the latch is set. -/
def notifiedState : RuleState := (evaluate hotLeadState).2

/-- C2 witness state: latch set, no stale notify action type. -/
def latchedGreetingState : RuleState :=
  { defaultState with
    renovation_lead_notified := true,
    current_intent := "Greeting" }

/-!  The raw (untyped) entry path of `evaluate_rules`.  A session
dictionary freshly loaded from the store can carry fields of any type;
lines 236-249 of the source establish the typed view above.  The
operations below mirror exactly the points where Python raises. -/

/-- Python `int(str)` parsing: strip whitespace, optional sign, digits.
(The rarely used underscore digit grouping is not modelled.) -/
def parseIntPy (s : String) : Option Int :=
  let t := pyStrip s
  let signDigits : Bool × List Char :=
    match t.data with
    | '-' :: rest => (true, rest)
    | '+' :: rest => (false, rest)
    | l => (false, l)
  if signDigits.2 ≠ [] ∧ signDigits.2.all Char.isDigit then
    let mag : Nat := signDigits.2.foldl (fun acc c => acc * 10 + (c.toNat - 48)) 0
    some (if signDigits.1 then -(mag : Int) else (mag : Int))
  else Option.none

/-- The reading of a string-valued control field
(`current_intent`, `context`, `last_action_type`, `last_prompt`,
`waiting_for`).  Python never throws on these: falsy values behave
exactly like `""` in every read the engine performs (truthiness,
equality with string literals, `or` defaulting), and truthy non-strings
compare unequal to every literal, which the sentinel strings reproduce. -/
def strField (v : Value) : String :=
  match v with
  | Value.none => ""
  | Value.bool false => ""
  | Value.bool true => "\x01bool"
  | Value.int 0 => ""
  | Value.int n => "\x01int" ++ toString n
  | Value.str s => s
  | Value.dict [] => ""
  | Value.dict _ => "\x01dict"

/-- The entry read of the summary, `_norm(state.get("conversation_summary",
""))` (line 243): a string is kept, a falsy value passes `_norm`'s
`if not s` guard and behaves like `""`, and a truthy non-string raises
(`s.lower()` on an `int` etc.).  Note `_services_ok` (line 104) re-reads
the raw value WITHOUT the falsy guard — `state.get("conversation_summary",
"").lower()` raises on a present None if the services_status path runs —
so a present falsy non-string gets past this entry read yet is still
unsafe; `summaryOkV` below therefore rejects it. -/
def summaryField (v : Value) : Except String String :=
  match v with
  | Value.str s => Except.ok s
  | v => if pyTruthy v then Except.error "TypeError: conversation_summary has no lower"
         else Except.ok ""

/-- `int(state.get("conversation_turn", 0))`: ints pass, bools coerce,
numeric strings parse, everything else (None included) raises. -/
def turnField (v : Value) : Except String Int :=
  match v with
  | Value.int n => Except.ok n
  | Value.bool b => Except.ok (if b then 1 else 0)
  | Value.str s =>
    match parseIntPy s with
    | some n => Except.ok n
    | Option.none => Except.error "ValueError: invalid literal for int()"
  | _ => Except.error "TypeError: int() argument is not a number"

/-- `state.get("entities", {})` (resp. `nlp_flags`) followed by the first
`.get` on the result: a dict passes, a falsy value behaves like `{}`, a
truthy non-dict raises `AttributeError` at the first `.get`. -/
def dictField (err : String) (v : Value) :
    Except String (List (String × Value)) :=
  match v with
  | Value.dict d => Except.ok d
  | v => if pyTruthy v then Except.error err
         else Except.ok []

/-- The typing boundary of `evaluate_rules` (lines 236-249) on a raw
session dictionary.  Errors are exactly the operations that raise in the
source: `int(state.get("conversation_turn", 0))` on a None or
non-numeric value, `_norm` (`s.lower()`) on a truthy non-string summary,
and the first `.get` on a truthy non-dict `entities`/`nlp_flags`. -/
def toRuleState (raw : List (String × Value)) : Except String RuleState :=
  do
  let conversation_summary ← summaryField (dgetD raw "conversation_summary" (Value.str ""))
  let conversation_turn ← turnField (dgetD raw "conversation_turn" (Value.int 0))
  let entities ← dictField "AttributeError: entities has no get"
    (dgetD raw "entities" (Value.dict []))
  let nlp_flags ← dictField "AttributeError: nlp_flags has no get"
    (dgetD raw "nlp_flags" (Value.dict []))
  Except.ok
    { pricing_provided := coerce_bool (dget raw "pricing_provided"),
      pricing_confirmed := coerce_bool (dget raw "pricing_confirmed"),
      renovation_lead_notified := coerce_bool (dget raw "renovation_lead_notified"),
      vehicle_info_acknowledged := coerce_bool (dget raw "vehicle_info_acknowledged"),
      plan_selected := coerce_bool (dget raw "plan_selected"),
      conversation_ended := coerce_bool (dget raw "conversation_ended"),
      lead_generation_complete := coerce_bool (dget raw "lead_generation_complete"),
      expiry_captured := coerce_bool (dget raw "expiry_captured"),
      services_up_to_date := coerce_bool (dget raw "services_up_to_date"),
      policy_number_provided := MemoryManager.coerce_bool (dget raw "policy_number_provided"),
      vehicle_details_provided := MemoryManager.coerce_bool (dget raw "vehicle_details_provided"),
      contact_info_provided := MemoryManager.coerce_bool (dget raw "contact_info_provided"),
      quote_provided := MemoryManager.coerce_bool (dget raw "quote_provided"),
      current_intent := strField (dget raw "current_intent"),
      entities := entities,
      conversation_summary := conversation_summary,
      nlp_flags := nlp_flags,
      conversation_turn := conversation_turn,
      context := strField (dget raw "context"),
      last_action_type := strField (dget raw "last_action_type"),
      last_prompt := strField (dget raw "last_prompt"),
      waiting_for := strField (dget raw "waiting_for"),
      last_action_turn :=
        (match dget raw "last_action_turn" with
         | Value.int n => n
         | _ => 0),
      expiry_days := dget raw "expiry_days",
      expiry_date := dget raw "expiry_date" }

/-- `evaluate_rules` on a raw session dictionary: type the state, then
run the typed chain.  An `error` result models a Python exception. -/
def evaluateRaw (raw : List (String × Value)) :
    Except String (Option Action × RuleState) :=
  (toRuleState raw).map evaluate

/-- A raw summary value that is safe for the whole run: a string (a
missing key defaults to `Value.str ""` and is fine).  A present falsy
non-string (None, False, 0, ...) passes the entry `_norm` read but still
raises at `_services_ok`'s unguarded `.lower()` re-read (line 104)
whenever the services_status path runs, so it is not well-typed. -/
def summaryOkV : Value → Bool
  | Value.str _ => true
  | _ => false

/-- A raw turn value `turnField` accepts. -/
def turnOkV : Value → Bool
  | Value.int _ => true
  | Value.bool _ => true
  | Value.str s => (parseIntPy s).isSome
  | _ => false

/-- A raw entities value the whole engine accepts: a dict whose values
are strings or None (a truthy non-string vehicle entity would make the
source raise inside `" ".join`), or a falsy non-dict. -/
def entsOkV : Value → Bool
  | Value.dict d => d.all (fun p => match p.2 with
      | Value.str _ => true
      | Value.none => true
      | _ => false)
  | v => !pyTruthy v

/-- A raw nlp-flags value `dictField` accepts. -/
def nlpOkV : Value → Bool
  | Value.dict _ => true
  | v => !pyTruthy v

/-- Well-typedness of a raw session dictionary: the turn counter is an
int, a bool or an integer-parsable string (or absent), the summary is a
string (or absent — a present falsy non-string would raise at the
`_services_ok` re-read), entities and nlp flags are dicts or falsy, and
entity values are strings or None. -/
def wellTypedRaw (raw : List (String × Value)) : Bool :=
  summaryOkV (dgetD raw "conversation_summary" (Value.str "")) &&
  turnOkV (dgetD raw "conversation_turn" (Value.int 0)) &&
  entsOkV (dgetD raw "entities" (Value.dict [])) &&
  nlpOkV (dgetD raw "nlp_flags" (Value.dict []))

/-- C9 counterexample inputs: a None turn counter and a non-string
summary. -/
def rawNoneTurn : List (String × Value) := [("conversation_turn", Value.none)]

/-- See `rawNoneTurn`. -/
def rawIntSummary : List (String × Value) := [("conversation_summary", Value.int 7)]

/-- C9 counterexample input: the summary key is present with value None.
It passes the entry `_norm` read (falsy collapses to ""), but with
`waiting_for = "services_status"` mid expired flow the engine reaches
`_services_ok`, whose unguarded `state.get("conversation_summary",
"").lower()` (line 104) raises AttributeError — `.get`'s default covers
only a missing key.  The typed boundary therefore excludes it:
`wellTypedRaw` is false on this dictionary. -/
def rawNoneSummary : List (String × Value) :=
  [("conversation_summary", Value.none),
   ("waiting_for", Value.str "services_status"),
   ("context", Value.str "expired_policy_flow"),
   ("expiry_captured", Value.bool true)]

/-- C9 witness input: well-typed raw state with a numeric-string turn. -/
def rawWellTyped : List (String × Value) :=
  [("conversation_turn", Value.str " 42 "), ("current_intent", Value.str "Bye")]

end RuleEngine

/-- The boolean coercion table exactly as C5 words it: boolean true,
integer 1, or one of the strings true/1/yes/si/sí after trimming,
case-insensitively; everything else false. -/
def coerceBoolClaimed (v : Value) : Bool :=
  match v with
  | Value.bool b => b
  | Value.int n => n == 1
  | Value.str s =>
    let t := strLower (pyStrip s)
    t = "true" || t = "1" || t = "yes" || t = "si" || t = "sí"
  | _ => false

/-- The corrected coercion table for the session store: boolean pass
through, any nonzero integer, strings true/1/yes only (no si/sí — those
are accepted only by the rule engine's private coercion), and Python
truthiness for the remaining types (nil false, a non-empty dict true). -/
def coerceBoolAmended (v : Value) : Bool :=
  (match v with | Value.bool true => true | _ => false) ||
  (match v with | Value.int n => decide (n ≠ 0) | _ => false) ||
  (match v with
   | Value.str s => ["true", "1", "yes"].contains (strLower (pyStrip s))
   | _ => false) ||
  (match v with | Value.dict d => !d.isEmpty | _ => false)

/-- C4 counterexample state: a stale true contact flag with no contact
entities at all. -/
def staleFlagState : MemoryManager.MemState :=
  { entities := [],
    policy_number_provided := Value.bool false,
    vehicle_details_provided := Value.bool false,
    contact_info_provided := Value.bool true,
    quote_provided := Value.bool false,
    renovation_lead_notified := Value.bool false,
    pricing_provided := Value.bool false,
    pricing_confirmed := Value.bool false,
    status := "active_session",
    conversation_summary := "" }

namespace MemoryManager

theorem update_entities_eq (state : MemState) (msg : String)
    (a : Option ChosenAction) :
    (update_session_state state msg a).entities = norm_entities_upper state.entities := by
  unfold update_session_state
  dsimp only
  split <;> split <;> split <;> split <;> rfl

theorem update_summary_eq (state : MemState) (msg : String)
    (a : Option ChosenAction) :
    (update_session_state state msg a).conversation_summary
      = boundSummary (appendSummary state.conversation_summary msg a) := by
  unfold update_session_state
  dsimp only
  split <;> split <;> split <;> split <;> rfl

theorem update_contact_eq (state : MemState) (msg : String)
    (a : Option ChosenAction) :
    (update_session_state state msg a).contact_info_provided
      = Value.bool ((pyTruthy (dget (norm_entities_upper state.entities) "EMAIL")
          || pyTruthy (dget (norm_entities_upper state.entities) "PHONE_NUMBER"))
          || coerce_bool state.contact_info_provided) := by
  unfold update_session_state
  dsimp only
  split <;> split <;> split <;> split <;> simp_all [coerce_bool] <;> tauto

theorem update_policy_eq (state : MemState) (msg : String)
    (a : Option ChosenAction) :
    (update_session_state state msg a).policy_number_provided
      = Value.bool (pyTruthy (dget (norm_entities_upper state.entities) "POLICY_NUMBER")
          || coerce_bool state.policy_number_provided) := by
  unfold update_session_state
  dsimp only
  split <;> split <;> split <;> split <;> simp_all [coerce_bool] <;> tauto

theorem update_vehicle_eq (state : MemState) (msg : String)
    (a : Option ChosenAction) :
    (update_session_state state msg a).vehicle_details_provided
      = Value.bool ((pyTruthy (dget (norm_entities_upper state.entities) "VEHICLE_MAKE")
          && pyTruthy (dget (norm_entities_upper state.entities) "VEHICLE_MODEL")
          && pyTruthy (dget (norm_entities_upper state.entities) "VEHICLE_YEAR"))
          || coerce_bool state.vehicle_details_provided) := by
  unfold update_session_state
  dsimp only
  split <;> split <;> split <;> split <;> simp_all [coerce_bool] <;> tauto

theorem boundSummary_length_le (s : String) :
    (boundSummary s).length ≤ SUMMARY_MAX_CHARS := by
  unfold boundSummary
  split
  · next h =>
    show (String.mk (s.data.drop (s.data.length - SUMMARY_MAX_CHARS))).length ≤ _
    have hlen : (String.mk (s.data.drop (s.data.length - SUMMARY_MAX_CHARS))).length
        = (s.data.drop (s.data.length - SUMMARY_MAX_CHARS)).length := rfl
    rw [hlen, List.length_drop]
    omega
  · next h => omega

theorem boundSummary_suffix (s : String) :
    (boundSummary s).data <:+ s.data := by
  unfold boundSummary
  by_cases h : s.length > SUMMARY_MAX_CHARS
  · simp only [if_pos h]
    exact List.drop_suffix _ _
  · simp only [if_neg h]
    exact List.suffix_refl _

end MemoryManager

theorem asciiLower_asciiUpper (c : Char) :
    asciiLower (asciiUpper c) = asciiLower c := by
  unfold asciiUpper
  split <;> rfl

theorem asciiUpper_not_lower (c : Char) :
    asciiUpper c ≠ 'a' ∧ asciiUpper c ≠ 'b' ∧ asciiUpper c ≠ 'c' ∧
    asciiUpper c ≠ 'd' ∧ asciiUpper c ≠ 'e' ∧ asciiUpper c ≠ 'f' ∧
    asciiUpper c ≠ 'g' ∧ asciiUpper c ≠ 'h' ∧ asciiUpper c ≠ 'i' ∧
    asciiUpper c ≠ 'j' ∧ asciiUpper c ≠ 'k' ∧ asciiUpper c ≠ 'l' ∧
    asciiUpper c ≠ 'm' ∧ asciiUpper c ≠ 'n' ∧ asciiUpper c ≠ 'o' ∧
    asciiUpper c ≠ 'p' ∧ asciiUpper c ≠ 'q' ∧ asciiUpper c ≠ 'r' ∧
    asciiUpper c ≠ 's' ∧ asciiUpper c ≠ 't' ∧ asciiUpper c ≠ 'u' ∧
    asciiUpper c ≠ 'v' ∧ asciiUpper c ≠ 'w' ∧ asciiUpper c ≠ 'x' ∧
    asciiUpper c ≠ 'y' ∧ asciiUpper c ≠ 'z' := by
  unfold asciiUpper
  split <;> first
    | decide
    | (refine ⟨?_, ?_, ?_, ?_, ?_, ?_, ?_, ?_, ?_, ?_, ?_, ?_, ?_, ?_, ?_, ?_,
        ?_, ?_, ?_, ?_, ?_, ?_, ?_, ?_, ?_, ?_⟩ <;> assumption)

theorem asciiUpper_asciiUpper (c : Char) :
    asciiUpper (asciiUpper c) = asciiUpper c := by
  conv => lhs; rw [asciiUpper.eq_def]
  split <;> first
    | rfl
    | (next heq =>
        exact absurd heq (by
          rcases asciiUpper_not_lower c with
            ⟨x1, x2, x3, x4, x5, x6, x7, x8, x9, x10, x11, x12, x13, x14, x15,
             x16, x17, x18, x19, x20, x21, x22, x23, x24, x25, x26⟩ <;>
          assumption))

theorem strLower_strUpper (s : String) :
    strLower (strUpper s) = strLower s := by
  have h : asciiLower ∘ asciiUpper = asciiLower := funext asciiLower_asciiUpper
  show String.mk (List.map asciiLower (List.map asciiUpper s.data))
      = String.mk (List.map asciiLower s.data)
  rw [List.map_map, h]

theorem strUpper_strUpper (s : String) :
    strUpper (strUpper s) = strUpper s := by
  have h : asciiUpper ∘ asciiUpper = asciiUpper := funext asciiUpper_asciiUpper
  show String.mk (List.map asciiUpper (List.map asciiUpper s.data))
      = String.mk (List.map asciiUpper s.data)
  rw [List.map_map, h]

namespace MemoryManager

theorem lookup_mem {l : List (String × String)} {k v : String}
    (h : l.lookup k = some v) : (k, v) ∈ l := by
  induction l with
  | nil => simp [List.lookup] at h
  | cons p t ih =>
    rw [List.lookup] at h
    split at h
    · next heq =>
      simp only [Option.some.injEq] at h
      subst h
      have hk : k = p.1 := eq_of_beq heq
      cases p with
      | mk a b =>
        simp only at hk
        subst hk
        exact List.mem_cons_self _ _
    · exact List.mem_cons_of_mem _ (ih h)

theorem canonKey_vals : ∀ p ∈ UPPER_MAP, canonKey p.2 = p.2 := by decide

theorem canonKey_idem (k : String) : canonKey (canonKey k) = canonKey k := by
  cases h : UPPER_MAP.lookup (strLower k) with
  | some std =>
    have hk : canonKey k = std := by unfold canonKey; rw [h]
    rw [hk]
    exact canonKey_vals _ (lookup_mem h)
  | none =>
    have hk : canonKey k = strUpper k := by unfold canonKey; rw [h]
    rw [hk]
    unfold canonKey
    rw [strLower_strUpper, h]
    exact strUpper_strUpper k

theorem dictSet_keys_of_mem (d : List (String × Value)) (k : String) (v : Value)
    (h : k ∈ keysOf d) : keysOf (dictSet d k v) = keysOf d := by
  unfold dictSet
  have hany : (d.any fun p => p.1 = k) = true := by
    rcases List.mem_map.1 h with ⟨p, hp, hpk⟩
    exact List.any_eq_true.2 ⟨p, hp, by simp [hpk]⟩
  rw [if_pos hany]
  unfold keysOf
  rw [List.map_map]
  have hfun : (Prod.fst ∘ fun p : String × Value => if p.1 = k then (k, v) else p)
      = Prod.fst := by
    funext p
    simp only [Function.comp_apply]
    split <;> simp_all
  rw [hfun]

theorem dictSet_not_mem (d : List (String × Value)) (k : String) (v : Value)
    (h : k ∉ keysOf d) : dictSet d k v = d ++ [(k, v)] := by
  unfold dictSet
  rw [if_neg]
  intro hc
  rcases List.any_eq_true.1 hc with ⟨p, hp, hpk⟩
  simp only [decide_eq_true_eq] at hpk
  exact h (List.mem_map.2 ⟨p, hp, hpk⟩)

theorem normFold_props (l : List (String × Value)) :
    ∀ acc : List (String × Value),
    (keysOf acc).Nodup → (∀ k2 ∈ keysOf acc, canonKey k2 = k2) →
    (keysOf (l.foldl (fun out kv => dictSet out (canonKey kv.1) kv.2) acc)).Nodup ∧
    (∀ k2 ∈ keysOf (l.foldl (fun out kv => dictSet out (canonKey kv.1) kv.2) acc),
      canonKey k2 = k2) := by
  induction l with
  | nil => intro acc h1 h2; exact ⟨h1, h2⟩
  | cons hd tl ih =>
    intro acc h1 h2
    rw [List.foldl_cons]
    by_cases hm : canonKey hd.1 ∈ keysOf acc
    · refine ih _ ?_ ?_
      · rw [dictSet_keys_of_mem _ _ _ hm]; exact h1
      · rw [dictSet_keys_of_mem _ _ _ hm]; exact h2
    · rw [dictSet_not_mem _ _ _ hm]
      refine ih _ ?_ ?_
      · unfold keysOf
        rw [List.map_append]
        refine List.Nodup.append h1 (by simp) ?_
        intro a ha hb
        simp only [List.map_cons, List.map_nil, List.mem_singleton] at hb
        subst hb
        exact hm ha
      · intro k2 hk2
        unfold keysOf at hk2
        rw [List.map_append] at hk2
        rcases List.mem_append.1 hk2 with hk2 | hk2
        · exact h2 _ hk2
        · simp only [List.map_cons, List.map_nil, List.mem_singleton] at hk2
          subst hk2
          exact canonKey_idem _

theorem foldl_dictSet_fixpoint (l : List (String × Value)) :
    ∀ acc : List (String × Value),
    (∀ p ∈ l, canonKey p.1 = p.1) → (keysOf (acc ++ l)).Nodup →
    l.foldl (fun out kv => dictSet out (canonKey kv.1) kv.2) acc = acc ++ l := by
  induction l with
  | nil => intro acc _ _; simp
  | cons hd tl ih =>
    intro acc hfix hnd
    rw [List.foldl_cons, hfix hd (List.mem_cons_self _ _)]
    have hnm : hd.1 ∉ keysOf acc := by
      intro hmem
      unfold keysOf at hnd
      rw [List.map_append] at hnd
      rcases List.nodup_append.1 hnd with ⟨_, _, hdisj⟩
      exact hdisj hmem (by simp)
    rw [dictSet_not_mem _ _ _ hnm]
    have hstep := ih (acc ++ [(hd.1, hd.2)])
      (fun p hp => hfix p (List.mem_cons_of_mem _ hp)) ?_
    · rw [hstep]
      simp
    · have : (acc ++ [(hd.1, hd.2)]) ++ tl = acc ++ hd :: tl := by simp
      rw [this]
      exact hnd

end MemoryManager

/-- C7: entity canonicalization is idempotent — for every entity map
`e`, `norm_entities_upper (norm_entities_upper e) = norm_entities_upper e`. -/
theorem C7_canonicalize_idempotent (e : List (String × Value)) :
    MemoryManager.norm_entities_upper (MemoryManager.norm_entities_upper e)
      = MemoryManager.norm_entities_upper e := by
  unfold MemoryManager.norm_entities_upper
  by_cases he : e.isEmpty
  · simp [he]
  · rw [if_neg he]
    obtain ⟨hnd, hfix⟩ := MemoryManager.normFold_props e []
      (by simp [MemoryManager.keysOf]) (by simp [MemoryManager.keysOf])
    by_cases ho : (e.foldl
        (fun out kv => MemoryManager.dictSet out (MemoryManager.canonKey kv.1) kv.2)
        []).isEmpty
    · rw [if_pos ho]
      rw [List.isEmpty_iff] at ho
      exact ho.symm
    · rw [if_neg ho]
      have hmain := MemoryManager.foldl_dictSet_fixpoint
        (e.foldl
          (fun out kv => MemoryManager.dictSet out (MemoryManager.canonKey kv.1) kv.2)
          []) []
        (fun p hp => hfix p.1 (List.mem_map_of_mem Prod.fst hp))
        (by simpa using hnd)
      simpa using hmain

/-- C4 counterexample: a Save on a state carrying a stale true
`contact_info_provided` flag and no entities at all leaves the flag true,
so the claimed "iff" between flag and entity condition fails in the
right-to-left-only direction. -/
theorem C4_stale_flag_counterexample :
    (MemoryManager.update_session_state staleFlagState "" Option.none).contact_info_provided
        = Value.bool true ∧
    ((MemoryManager.update_session_state staleFlagState "" Option.none).entities.lookup
        "EMAIL").isSome = false ∧
    ((MemoryManager.update_session_state staleFlagState "" Option.none).entities.lookup
        "PHONE_NUMBER").isSome = false := by
  exact ⟨rfl, rfl, rfl⟩

/-- C4 (amended): after every Save the derived flags hold IF their entity
conditions hold, and otherwise keep their coerced previous value — the
recomputation sets flags but never clears them, so a stale true flag
survives a Save whose entities no longer satisfy the condition. -/
theorem C4_derived_flags_amended (state : MemoryManager.MemState) (msg : String)
    (a : Option MemoryManager.ChosenAction) :
    (MemoryManager.update_session_state state msg a).entities
        = MemoryManager.norm_entities_upper state.entities ∧
    (MemoryManager.update_session_state state msg a).contact_info_provided
        = Value.bool
          ((pyTruthy (dget (MemoryManager.norm_entities_upper state.entities) "EMAIL")
            || pyTruthy (dget (MemoryManager.norm_entities_upper state.entities) "PHONE_NUMBER"))
            || MemoryManager.coerce_bool state.contact_info_provided) ∧
    (MemoryManager.update_session_state state msg a).policy_number_provided
        = Value.bool
          (pyTruthy (dget (MemoryManager.norm_entities_upper state.entities) "POLICY_NUMBER")
            || MemoryManager.coerce_bool state.policy_number_provided) ∧
    (MemoryManager.update_session_state state msg a).vehicle_details_provided
        = Value.bool
          ((pyTruthy (dget (MemoryManager.norm_entities_upper state.entities) "VEHICLE_MAKE")
            && pyTruthy (dget (MemoryManager.norm_entities_upper state.entities) "VEHICLE_MODEL")
            && pyTruthy (dget (MemoryManager.norm_entities_upper state.entities) "VEHICLE_YEAR"))
            || MemoryManager.coerce_bool state.vehicle_details_provided) := by
  exact ⟨MemoryManager.update_entities_eq state msg a,
         MemoryManager.update_contact_eq state msg a,
         MemoryManager.update_policy_eq state msg a,
         MemoryManager.update_vehicle_eq state msg a⟩

/-- C5 counterexample: the session store's `coerce_bool` rejects "si"
(only the rule engine's private `_coerce_bool` accepts it) and accepts
every nonzero integer, not only 1 — both contradicting the claimed
value table. -/
theorem C5_coercion_counterexample :
    MemoryManager.coerce_bool (Value.str "si") = false ∧
    coerceBoolClaimed (Value.str "si") = true ∧
    MemoryManager.coerce_bool (Value.int 2) = true ∧
    coerceBoolClaimed (Value.int 2) = false ∧
    RuleEngine.coerce_bool (Value.str "si") = true := by
  exact ⟨rfl, rfl, rfl, rfl, rfl⟩

/-- C5 (amended): the session store's `coerce_bool` returns true exactly
for boolean true, nonzero integers, and the trimmed case-insensitive
strings true/1/yes; everything else, nil included, falls back to Python
truthiness (so a non-empty dict is also true). -/
theorem C5_coerce_bool_amended (v : Value) :
    MemoryManager.coerce_bool v = coerceBoolAmended v := by
  cases v with
  | none => rfl
  | bool b => cases b <;> rfl
  | int n =>
    by_cases h : n = 0 <;> simp [MemoryManager.coerce_bool, coerceBoolAmended, h]
  | str s =>
    simp [MemoryManager.coerce_bool, coerceBoolAmended, List.contains, Bool.or_assoc]
  | dict d => rfl

/-- C6: after every Save, the conversation summary is the bounded form of
the appended transcript: its length never exceeds `SUMMARY_MAX_CHARS`,
it is a suffix of the appended transcript (newest text kept), and when
the appended transcript exceeds the bound exactly the trailing
`SUMMARY_MAX_CHARS` characters remain. -/
theorem C6_summary_bound (state : MemoryManager.MemState) (msg : String)
    (a : Option MemoryManager.ChosenAction) :
    (MemoryManager.update_session_state state msg a).conversation_summary.length
        ≤ MemoryManager.SUMMARY_MAX_CHARS ∧
    (MemoryManager.update_session_state state msg a).conversation_summary.data
        <:+ (MemoryManager.appendSummary state.conversation_summary msg a).data ∧
    ((MemoryManager.appendSummary state.conversation_summary msg a).length
        > MemoryManager.SUMMARY_MAX_CHARS →
      (MemoryManager.update_session_state state msg a).conversation_summary.length
        = MemoryManager.SUMMARY_MAX_CHARS) := by
  have hs := MemoryManager.update_summary_eq state msg a
  refine ⟨?_, ?_, ?_⟩
  · rw [hs]
    exact MemoryManager.boundSummary_length_le _
  · rw [hs]
    exact MemoryManager.boundSummary_suffix _
  · intro hlong
    rw [hs]
    unfold MemoryManager.boundSummary
    rw [if_pos hlong]
    show ((MemoryManager.appendSummary state.conversation_summary msg a).data.drop
        _).length = _
    rw [List.length_drop]
    have hlen : (MemoryManager.appendSummary state.conversation_summary msg a).length
        = (MemoryManager.appendSummary state.conversation_summary msg a).data.length := rfl
    omega

namespace RuleEngine

@[simp]
theorem updateAndReturn_fst (s : RuleState) (a : Action) (c : Option String) :
    (updateAndReturn s a c).1 = some a := by
  unfold updateAndReturn
  cases c <;> dsimp only <;> split <;> rfl

@[simp]
theorem updateAndReturn_turn (s : RuleState) (a : Action) (c : Option String) :
    (updateAndReturn s a c).2.conversation_turn = s.conversation_turn := by
  unfold updateAndReturn
  cases c <;> dsimp only <;> split <;> rfl

@[simp]
theorem updateAndReturn_notified (s : RuleState) (a : Action) (c : Option String) :
    (updateAndReturn s a c).2.renovation_lead_notified = s.renovation_lead_notified := by
  unfold updateAndReturn
  cases c <;> dsimp only <;> split <;> rfl

@[simp]
theorem updateAndReturn_complete (s : RuleState) (a : Action) (c : Option String) :
    (updateAndReturn s a c).2.lead_generation_complete = s.lead_generation_complete := by
  unfold updateAndReturn
  cases c <;> dsimp only <;> split <;> rfl

@[simp]
theorem updateAndReturn_summary (s : RuleState) (a : Action) (c : Option String) :
    (updateAndReturn s a c).2.conversation_summary = s.conversation_summary := by
  unfold updateAndReturn
  cases c <;> dsimp only <;> split <;> rfl

@[simp]
theorem updateAndReturn_ended (s : RuleState) (a : Action) (c : Option String) :
    (updateAndReturn s a c).2.conversation_ended = s.conversation_ended := by
  unfold updateAndReturn
  cases c <;> dsimp only <;> split <;> rfl

@[simp]
theorem updateAndReturn_policy_flag (s : RuleState) (a : Action) (c : Option String) :
    (updateAndReturn s a c).2.policy_number_provided = s.policy_number_provided := by
  unfold updateAndReturn
  cases c <;> dsimp only <;> split <;> rfl

@[simp]
theorem updateAndReturn_vehicle_flag (s : RuleState) (a : Action) (c : Option String) :
    (updateAndReturn s a c).2.vehicle_details_provided = s.vehicle_details_provided := by
  unfold updateAndReturn
  cases c <;> dsimp only <;> split <;> rfl

@[simp]
theorem updateAndReturn_contact_flag (s : RuleState) (a : Action) (c : Option String) :
    (updateAndReturn s a c).2.contact_info_provided = s.contact_info_provided := by
  unfold updateAndReturn
  cases c <;> dsimp only <;> split <;> rfl

theorem expiredCapture_fields (s : RuleState) (intent sn : String)
    (entities nlp_flags : List (String × Value)) :
    (expiredCapture s intent sn entities nlp_flags).conversation_turn
        = s.conversation_turn ∧
    (expiredCapture s intent sn entities nlp_flags).renovation_lead_notified
        = s.renovation_lead_notified ∧
    (expiredCapture s intent sn entities nlp_flags).lead_generation_complete
        = s.lead_generation_complete ∧
    (expiredCapture s intent sn entities nlp_flags).last_action_type
        = s.last_action_type := by
  unfold expiredCapture
  dsimp only
  repeat' split
  all_goals exact ⟨rfl, rfl, rfl, rfl⟩

theorem expiredBlock_inl_state {s : RuleState} {intent sn : String}
    {entities nlp_flags : List (String × Value)} {r : Option Action × RuleState}
    (h : expiredBlock s intent sn entities nlp_flags = Sum.inl r) :
    r.2.conversation_turn = s.conversation_turn ∧
    r.2.renovation_lead_notified = s.renovation_lead_notified ∧
    r.2.lead_generation_complete = s.lead_generation_complete := by
  obtain ⟨hct, hcn, hcc, -⟩ := expiredCapture_fields s intent sn entities nlp_flags
  unfold expiredBlock at h
  dsimp only at h
  repeat' split at h
  all_goals first
    | contradiction
    | (injection h with hinj; subst hinj;
       exact ⟨by rw [updateAndReturn_turn]; exact hct,
              by rw [updateAndReturn_notified]; exact hcn,
              by rw [updateAndReturn_complete]; exact hcc⟩)

theorem expiredBlock_inr_state {s : RuleState} {intent sn : String}
    {entities nlp_flags : List (String × Value)} {s2 : RuleState}
    (h : expiredBlock s intent sn entities nlp_flags = Sum.inr s2) :
    s2.conversation_turn = s.conversation_turn ∧
    s2.renovation_lead_notified = s.renovation_lead_notified ∧
    s2.lead_generation_complete = s.lead_generation_complete ∧
    s2.last_action_type = s.last_action_type := by
  obtain ⟨hct, hcn, hcc, hcl⟩ := expiredCapture_fields s intent sn entities nlp_flags
  unfold expiredBlock at h
  dsimp only at h
  repeat' split at h
  all_goals first
    | contradiction
    | (injection h with hinj; subst hinj; exact ⟨hct, hcn, hcc, hcl⟩)

theorem vehicleStep_inl_state {s : RuleState} {intent : String}
    {entities : List (String × Value)} {r : Option Action × RuleState}
    (h : vehicleStep s intent entities = Sum.inl r) :
    r.2.conversation_turn = s.conversation_turn ∧
    r.2.renovation_lead_notified = s.renovation_lead_notified ∧
    r.2.lead_generation_complete = s.lead_generation_complete := by
  unfold vehicleStep at h
  dsimp only at h
  repeat' split at h
  all_goals first
    | contradiction
    | (injection h with hinj; subst hinj;
       exact ⟨by rw [updateAndReturn_turn], by rw [updateAndReturn_notified],
              by rw [updateAndReturn_complete]⟩)

theorem vehicleStep_inr_state {s : RuleState} {intent : String}
    {entities : List (String × Value)} {s2 : RuleState}
    (h : vehicleStep s intent entities = Sum.inr s2) :
    s2.conversation_turn = s.conversation_turn ∧
    s2.renovation_lead_notified = s.renovation_lead_notified ∧
    s2.lead_generation_complete = s.lead_generation_complete ∧
    s2.last_action_type = s.last_action_type := by
  unfold vehicleStep at h
  dsimp only at h
  repeat' split at h
  all_goals first
    | contradiction
    | (injection h with hinj; subst hinj; exact ⟨rfl, rfl, rfl, rfl⟩)

theorem contactNotifyStep_some {s : RuleState} {intent : String}
    {entities : List (String × Value)} {r : Option Action × RuleState}
    (h : contactNotifyStep s intent entities = some r) :
    r.2.conversation_turn = s.conversation_turn ∧
    r.2.renovation_lead_notified = true ∧
    r.2.lead_generation_complete = true := by
  unfold contactNotifyStep at h
  try dsimp only at h
  split at h
  · injection h with hinj
    subst hinj
    exact ⟨by rw [updateAndReturn_turn],
           by rw [updateAndReturn_notified],
           by rw [updateAndReturn_complete]⟩
  · contradiction

theorem contactNotifyStep_none_of_notified {s : RuleState} {intent : String}
    {entities : List (String × Value)}
    (h : s.renovation_lead_notified = true) :
    contactNotifyStep s intent entities = Option.none := by
  unfold contactNotifyStep
  rw [if_neg]
  simp [readyToNotify, h]

theorem confirmStep_some {s : RuleState} {intent phase : String}
    {entities : List (String × Value)} {r : Option Action × RuleState}
    (h : confirmStep s intent phase entities = some r) :
    r.2.conversation_turn = s.conversation_turn ∧
    r.2.renovation_lead_notified = s.renovation_lead_notified ∧
    r.2.lead_generation_complete = s.lead_generation_complete ∧
    (∀ a, r.1 = some a → a.action_type = "ask_for_policy_number"
      ∨ a.action_type = "ask_for_vehicle_info"
      ∨ a.action_type = "request_contact_info") := by
  unfold confirmStep at h
  try dsimp only at h
  repeat' split at h
  all_goals first
    | contradiction
    | (injection h with hinj; subst hinj;
       refine ⟨by rw [updateAndReturn_turn], by rw [updateAndReturn_notified],
               by rw [updateAndReturn_complete], ?_⟩ <;>
       (intro a ha; rw [updateAndReturn_fst] at ha; injection ha with ha2;
        subst ha2;
        simp [confirmAskPolicy, confirmAskVehicle, confirmAskContact]))

theorem faqStep_some {s : RuleState} {intent phase sn : String}
    {entities : List (String × Value)} {r : Option Action × RuleState}
    (h : faqStep s intent phase sn entities = some r) :
    r.2.conversation_turn = s.conversation_turn ∧
    r.2.renovation_lead_notified = s.renovation_lead_notified ∧
    r.2.lead_generation_complete = s.lead_generation_complete ∧
    (∀ a, r.1 = some a → a.action_type = "provide_payment_info"
      ∨ a.action_type = "provide_pricing_info"
      ∨ a.action_type = "provide_claims_info") := by
  unfold faqStep at h
  try dsimp only at h
  repeat' split at h
  all_goals first
    | contradiction
    | (injection h with hinj; subst hinj;
       refine ⟨by rw [updateAndReturn_turn], by rw [updateAndReturn_notified],
               by rw [updateAndReturn_complete], ?_⟩ <;>
       (intro a ha; rw [updateAndReturn_fst] at ha; injection ha with ha2;
        subst ha2;
        simp [paymentInfoAction, pricingInfoAction, claimsInfoAction]))

theorem unknownStep_state (s : RuleState) (entities : List (String × Value)) :
    (unknownStep s entities).2.conversation_turn = s.conversation_turn ∧
    (unknownStep s entities).2.renovation_lead_notified = s.renovation_lead_notified ∧
    (unknownStep s entities).2.lead_generation_complete = s.lead_generation_complete ∧
    (∀ a, (unknownStep s entities).1 = some a →
      a.action_type = "ask_for_vehicle_info"
      ∨ a.action_type = "ask_for_policy_number"
      ∨ a.action_type = "clarify_intent") := by
  unfold unknownStep
  try dsimp only
  repeat' split
  all_goals
    refine ⟨by rw [updateAndReturn_turn], by rw [updateAndReturn_notified],
            by rw [updateAndReturn_complete], ?_⟩ <;>
    (intro a ha; rw [updateAndReturn_fst] at ha; injection ha with ha2;
     subst ha2;
     simp [smartAskVehicle, smartAskPolicy, contactToPolicy, contactToVehicle,
           clarifyIntentAction])

theorem pricingFlowStep_some {s : RuleState} {intent phase : String}
    {entities : List (String × Value)} {r : Option Action × RuleState}
    (h : pricingFlowStep s intent phase entities = some r) :
    r.2.conversation_turn = s.conversation_turn ∧
    r.2.renovation_lead_notified = s.renovation_lead_notified ∧
    r.2.lead_generation_complete = s.lead_generation_complete ∧
    (∀ a, r.1 = some a → a.action_type = "request_contact_info") := by
  unfold pricingFlowStep at h
  try dsimp only at h
  repeat' split at h
  all_goals first
    | contradiction
    | (injection h with hinj; subst hinj;
       refine ⟨by rw [updateAndReturn_turn], by rw [updateAndReturn_notified],
               by rw [updateAndReturn_complete], ?_⟩ <;>
       (intro a ha; rw [updateAndReturn_fst] at ha; injection ha with ha2;
        subst ha2;
        simp [planSelectedAction, confirmPricingContact]))

theorem clarifyStep_some {s : RuleState} {intent phase : String}
    {r : Option Action × RuleState}
    (h : clarifyStep s intent phase = some r) :
    r.2.conversation_turn = s.conversation_turn ∧
    r.2.renovation_lead_notified = s.renovation_lead_notified ∧
    r.2.lead_generation_complete = s.lead_generation_complete ∧
    (∀ a, r.1 = some a → a.action_type = s.last_action_type
      ∨ a.action_type = "ask_for_policy_number"
      ∨ a.action_type = "explain"
      ∨ a.action_type = "clarify_pricing_options") := by
  unfold clarifyStep at h
  try dsimp only at h
  repeat' split at h
  all_goals first
    | contradiction
    | (injection h with hinj; subst hinj;
       refine ⟨by rw [updateAndReturn_turn], by rw [updateAndReturn_notified],
               by rw [updateAndReturn_complete], ?_⟩ <;>
       (intro a ha; rw [updateAndReturn_fst] at ha; injection ha with ha2;
        subst ha2;
        simp_all [explainAssistant, explainProduct, clarifyPricingOptions]))

theorem collectStep_some {s : RuleState} {intent : String}
    {entities : List (String × Value)} {r : Option Action × RuleState}
    (h : collectStep s intent entities = some r) :
    r.2.conversation_turn = s.conversation_turn ∧
    r.2.renovation_lead_notified = s.renovation_lead_notified ∧
    r.2.lead_generation_complete = s.lead_generation_complete ∧
    (∀ a, r.1 = some a → a.action_type = "ask_for_policy_number"
      ∨ a.action_type = "ask_for_vehicle_info"
      ∨ a.action_type = "request_contact_info") := by
  unfold collectStep at h
  try dsimp only at h
  repeat' split at h
  all_goals first
    | contradiction
    | (injection h with hinj; subst hinj;
       refine ⟨by rw [updateAndReturn_turn], by rw [updateAndReturn_notified],
               by rw [updateAndReturn_complete], ?_⟩ <;>
       (intro a ha; rw [updateAndReturn_fst] at ha; injection ha with ha2;
        subst ha2;
        simp [askPolicyRenovate, askVehicleWithPolicy, askContactRenovate]))

theorem vehicleStep_inl_act {s : RuleState} {intent : String}
    {entities : List (String × Value)} {r : Option Action × RuleState}
    (h : vehicleStep s intent entities = Sum.inl r) :
    ∀ a, r.1 = some a → a.action_type = "request_contact_info" := by
  unfold vehicleStep at h
  try dsimp only at h
  repeat' split at h
  all_goals first
    | contradiction
    | (injection h with hinj; subst hinj;
       intro a ha; rw [updateAndReturn_fst] at ha; injection ha with ha2;
       subst ha2;
       simp [vehicleAckContact])

theorem expiredBlock_inl_act {s : RuleState} {intent sn : String}
    {entities nlp_flags : List (String × Value)} {r : Option Action × RuleState}
    (h : expiredBlock s intent sn entities nlp_flags = Sum.inl r) :
    ∀ a, r.1 = some a → a.action_type = "ask_expiry_date"
      ∨ a.action_type = "ask_services_status"
      ∨ a.action_type = "ask_for_policy_number"
      ∨ a.action_type = "ask_for_vehicle_info"
      ∨ a.action_type = "request_contact_info" := by
  unfold expiredBlock at h
  try dsimp only at h
  repeat' split at h
  all_goals first
    | contradiction
    | (injection h with hinj; subst hinj;
       intro a ha; rw [updateAndReturn_fst] at ha; injection ha with ha2;
       subst ha2;
       simp [askExpiryDate, askServicesStatus, askPolicyExpired,
             askVehicleExpired, askContactExpired])

theorem evalTail2_state (s : RuleState) (intent phase sn : String)
    (entities nlp_flags : List (String × Value)) :
    (evalTail2 s intent phase sn entities nlp_flags).2.conversation_turn
        = s.conversation_turn ∧
    (((evalTail2 s intent phase sn entities nlp_flags).2.renovation_lead_notified
          = s.renovation_lead_notified ∧
      (evalTail2 s intent phase sn entities nlp_flags).2.lead_generation_complete
          = s.lead_generation_complete) ∨
     ((evalTail2 s intent phase sn entities nlp_flags).2.renovation_lead_notified
          = true ∧
      (evalTail2 s intent phase sn entities nlp_flags).2.lead_generation_complete
          = true)) := by
  unfold evalTail2
  rcases hc : contactNotifyStep s intent entities with - | r
  · 
    try dsimp only
    rcases hcf : confirmStep s intent phase entities with - | r2
    · 
      try dsimp only
      rcases hq : faqStep s intent phase sn entities with - | r3
      · 
        try dsimp only
        split
        · obtain ⟨h1, h2, h3, -⟩ := unknownStep_state s entities
          exact ⟨h1, Or.inl ⟨h2, h3⟩⟩
        · exact ⟨rfl, Or.inl ⟨rfl, rfl⟩⟩
      · 
        try dsimp only
        obtain ⟨h1, h2, h3, -⟩ := faqStep_some hq
        exact ⟨h1, Or.inl ⟨h2, h3⟩⟩
    · 
      try dsimp only
      obtain ⟨h1, h2, h3, -⟩ := confirmStep_some hcf
      exact ⟨h1, Or.inl ⟨h2, h3⟩⟩
  · 
    try dsimp only
    obtain ⟨h1, h2, h3⟩ := contactNotifyStep_some hc
    exact ⟨h1, Or.inr ⟨h2, h3⟩⟩

theorem evalTail_state (s : RuleState) (intent phase sn : String)
    (entities nlp_flags : List (String × Value)) :
    (evalTail s intent phase sn entities nlp_flags).2.conversation_turn
        = s.conversation_turn ∧
    (((evalTail s intent phase sn entities nlp_flags).2.renovation_lead_notified
          = s.renovation_lead_notified ∧
      (evalTail s intent phase sn entities nlp_flags).2.lead_generation_complete
          = s.lead_generation_complete) ∨
     ((evalTail s intent phase sn entities nlp_flags).2.renovation_lead_notified
          = true ∧
      (evalTail s intent phase sn entities nlp_flags).2.lead_generation_complete
          = true)) := by
  unfold evalTail
  rcases hp : pricingFlowStep s intent phase entities with - | r
  · 
    try dsimp only
    rcases hcl : clarifyStep s intent phase with - | r2
    · 
      try dsimp only
      rcases hco : collectStep s intent entities with - | r3
      · 
        try dsimp only
        rcases hv : vehicleStep s intent entities with r4 | s2
        · 
          try dsimp only
          obtain ⟨h1, h2, h3⟩ := vehicleStep_inl_state hv
          exact ⟨h1, Or.inl ⟨h2, h3⟩⟩
        · 
          try dsimp only
          obtain ⟨h1, h2, h3, -⟩ := vehicleStep_inr_state hv
          obtain ⟨g1, g2⟩ := evalTail2_state s2 intent phase sn entities nlp_flags
          refine ⟨by rw [g1, h1], ?_⟩
          rcases g2 with ⟨ga, gb⟩ | ⟨ga, gb⟩
          · exact Or.inl ⟨by rw [ga, h2], by rw [gb, h3]⟩
          · exact Or.inr ⟨ga, gb⟩
      · 
        try dsimp only
        obtain ⟨h1, h2, h3, -⟩ := collectStep_some hco
        exact ⟨h1, Or.inl ⟨h2, h3⟩⟩
    · 
      try dsimp only
      obtain ⟨h1, h2, h3, -⟩ := clarifyStep_some hcl
      exact ⟨h1, Or.inl ⟨h2, h3⟩⟩
  · 
    try dsimp only
    obtain ⟨h1, h2, h3, -⟩ := pricingFlowStep_some hp
    exact ⟨h1, Or.inl ⟨h2, h3⟩⟩

theorem terminalStep_some {s : RuleState} {intent phase : String}
    {r : Option Action × RuleState}
    (h : terminalStep s intent phase = some r) :
    r.2.conversation_turn = s.conversation_turn ∧
    r.2.renovation_lead_notified = s.renovation_lead_notified ∧
    r.2.lead_generation_complete = s.lead_generation_complete ∧
    (∀ a, r.1 = some a → a.action_type = "end_conversation_after_completion") := by
  unfold terminalStep at h
  try dsimp only at h
  repeat' split at h
  all_goals first
    | contradiction
    | (injection h with hinj; subst hinj;
       refine ⟨rfl, rfl, rfl, ?_⟩
       intro a ha
       first
         | exact Option.noConfusion ha
         | (rw [updateAndReturn_fst] at ha; injection ha with ha2; subst ha2;
            rfl))

theorem terminalStep_none_of {s : RuleState} {intent phase : String}
    (h1 : phase ≠ "ended") (h2 : phase ≠ "completed") :
    terminalStep s intent phase = Option.none := by
  unfold terminalStep
  rw [if_neg h1, if_neg h2]

theorem metaStep_some {s : RuleState} {intent phase : String}
    {entities : List (String × Value)} {r : Option Action × RuleState}
    (h : metaStep s intent phase entities = some r) :
    r.2.conversation_turn = s.conversation_turn ∧
    ((r.2.renovation_lead_notified = s.renovation_lead_notified ∧
      r.2.lead_generation_complete = s.lead_generation_complete) ∨
     (r.2.renovation_lead_notified = false ∧
      r.2.lead_generation_complete = false)) ∧
    (∀ a, r.1 = some a → a.action_type = "end_conversation_with_followup"
      ∨ a.action_type = "end_conversation"
      ∨ a.action_type = "end_conversation_after_thanks"
      ∨ a.action_type = "acknowledge_thanks"
      ∨ a.action_type = "cancel_process"
      ∨ a.action_type = "greet_and_offer_service"
      ∨ a.action_type = s.last_action_type
      ∨ a.action_type = "ask_for_policy_number") := by
  unfold metaStep at h
  try dsimp only at h
  repeat' split at h
  all_goals first
    | contradiction
    | (injection h with hinj; subst hinj;
       refine ⟨by rw [updateAndReturn_turn]; try rfl, ?_, ?_⟩
       · simp [greetingReset]
       · intro a ha
         rw [updateAndReturn_fst] at ha
         injection ha with ha2
         subst ha2
         simp_all [byeWithData, byePlain, endAfterThanks, acknowledgeThanks,
                   disagreementEnd, cancelProcess, greetAndOffer])

theorem evaluateCore_state (s : RuleState) (intent phase sn : String)
    (entities nlp_flags : List (String × Value)) :
    (evaluateCore s intent phase sn entities nlp_flags).2.conversation_turn
        = s.conversation_turn ∧
    (((evaluateCore s intent phase sn entities nlp_flags).2.renovation_lead_notified
          = s.renovation_lead_notified ∧
      (evaluateCore s intent phase sn entities nlp_flags).2.lead_generation_complete
          = s.lead_generation_complete) ∨
     ((evaluateCore s intent phase sn entities nlp_flags).2.renovation_lead_notified
          = true ∧
      (evaluateCore s intent phase sn entities nlp_flags).2.lead_generation_complete
          = true) ∨
     ((evaluateCore s intent phase sn entities nlp_flags).2.renovation_lead_notified
          = false ∧
      (evaluateCore s intent phase sn entities nlp_flags).2.lead_generation_complete
          = false)) := by
  unfold evaluateCore
  rcases ht : terminalStep s intent phase with - | r
  · try dsimp only
    split
    · refine ⟨by rw [updateAndReturn_turn], Or.inr (Or.inl ?_)⟩
      exact ⟨by rw [updateAndReturn_notified], by rw [updateAndReturn_complete]⟩
    · rcases hm : metaStep s intent phase entities with - | r2
      · try dsimp only
        split
        · rcases he : expiredBlock s intent sn entities nlp_flags with r3 | s2
          · try dsimp only
            obtain ⟨h1, h2, h3⟩ := expiredBlock_inl_state he
            exact ⟨h1, Or.inl ⟨h2, h3⟩⟩
          · try dsimp only
            obtain ⟨h1, h2, h3, -⟩ := expiredBlock_inr_state he
            obtain ⟨g1, g2⟩ := evalTail_state s2 intent phase sn entities nlp_flags
            refine ⟨by rw [g1, h1], ?_⟩
            rcases g2 with ⟨ga, gb⟩ | ⟨ga, gb⟩
            · exact Or.inl ⟨by rw [ga, h2], by rw [gb, h3]⟩
            · exact Or.inr (Or.inl ⟨ga, gb⟩)
        · obtain ⟨g1, g2⟩ := evalTail_state s intent phase sn entities nlp_flags
          refine ⟨g1, ?_⟩
          rcases g2 with ⟨ga, gb⟩ | ⟨ga, gb⟩
          · exact Or.inl ⟨ga, gb⟩
          · exact Or.inr (Or.inl ⟨ga, gb⟩)
      · try dsimp only
        obtain ⟨h1, h2, -⟩ := metaStep_some hm
        refine ⟨h1, ?_⟩
        rcases h2 with ⟨ga, gb⟩ | ⟨ga, gb⟩
        · exact Or.inl ⟨ga, gb⟩
        · exact Or.inr (Or.inr ⟨ga, gb⟩)
  · try dsimp only
    obtain ⟨h1, h2, h3, -⟩ := terminalStep_some ht
    exact ⟨h1, Or.inl ⟨h2, h3⟩⟩

theorem evaluateCore_latch (s : RuleState) (intent phase sn : String)
    (entities nlp_flags : List (String × Value))
    (hn : s.renovation_lead_notified = true)
    (hc : s.lead_generation_complete = true)
    (hp : phase = "ended" ∨ phase = "completed") :
    (evaluateCore s intent phase sn entities nlp_flags).2.renovation_lead_notified
        = true ∧
    (evaluateCore s intent phase sn entities nlp_flags).2.lead_generation_complete
        = true := by
  have hsome : ∃ r, terminalStep s intent phase = some r := by
    unfold terminalStep
    rcases hp with hp | hp <;> subst hp
    · refine ⟨(Option.none, s), ?_⟩
      rw [if_pos rfl]
    · rw [if_neg (by decide : ¬("completed" : String) = "ended"), if_pos rfl]
      split
      · exact ⟨updateAndReturn s endAfterCompletion Option.none, rfl⟩
      · exact ⟨(Option.none, s), rfl⟩
  obtain ⟨r, hr⟩ := hsome
  obtain ⟨-, h2, h3, -⟩ := terminalStep_some hr
  unfold evaluateCore
  rw [hr]
  try dsimp only
  exact ⟨h2.trans hn, h3.trans hc⟩

theorem phase_of_terminal (s : RuleState)
    (h : s.lead_generation_complete = true) :
    getConversationPhase s = "ended" ∨ getConversationPhase s = "completed" := by
  unfold getConversationPhase
  cases hce : s.conversation_ended
  · simp [h]
  · simp

theorem evaluate_latch (s : RuleState)
    (hn : s.renovation_lead_notified = true)
    (hc : s.lead_generation_complete = true) :
    (evaluate s).2.renovation_lead_notified = true ∧
    (evaluate s).2.lead_generation_complete = true := by
  unfold evaluate
  try dsimp only
  exact evaluateCore_latch _ _ _ _ _ _ hn hc
    (phase_of_terminal { s with conversation_turn := s.conversation_turn + 1 } hc)

theorem evaluate_inv (s : RuleState) (h : latchInv s) :
    latchInv (evaluate s).2 := by
  cases hn : s.renovation_lead_notified
  · intro habs
    have habs2 : (evaluateCore
        { s with conversation_turn := s.conversation_turn + 1 }
        (classifyIntentWithContext
          (if s.current_intent != "" then s.current_intent else "Unknown")
          s.entities { s with conversation_turn := s.conversation_turn + 1 }
          (pyNorm s.conversation_summary))
        (getConversationPhase
          { s with conversation_turn := s.conversation_turn + 1 })
        (pyNorm s.conversation_summary) s.entities
        s.nlp_flags).2.renovation_lead_notified = true := habs
    have hstate := evaluateCore_state
      { s with conversation_turn := s.conversation_turn + 1 }
      (classifyIntentWithContext
        (if s.current_intent != "" then s.current_intent else "Unknown")
        s.entities { s with conversation_turn := s.conversation_turn + 1 }
        (pyNorm s.conversation_summary))
      (getConversationPhase { s with conversation_turn := s.conversation_turn + 1 })
      (pyNorm s.conversation_summary) s.entities s.nlp_flags
    show (evaluateCore
        { s with conversation_turn := s.conversation_turn + 1 }
        (classifyIntentWithContext
          (if s.current_intent != "" then s.current_intent else "Unknown")
          s.entities { s with conversation_turn := s.conversation_turn + 1 }
          (pyNorm s.conversation_summary))
        (getConversationPhase
          { s with conversation_turn := s.conversation_turn + 1 })
        (pyNorm s.conversation_summary) s.entities
        s.nlp_flags).2.lead_generation_complete = true
    rcases hstate.2 with ⟨ga, gb⟩ | ⟨ga, gb⟩ | ⟨ga, gb⟩
    · rw [habs2] at ga
      exact absurd (ga.trans hn) (by decide)
    · exact gb
    · rw [habs2] at ga
      exact absurd ga (by decide)
  · intro _
    exact (evaluate_latch s hn (h hn)).2

theorem brainStep_inv {s s2 : RuleState} (hstep : BrainStep s s2)
    (h : latchInv s) : latchInv s2 := by
  cases hstep with
  | percept intent ents nf summary p v c q => exact h
  | evalStep => exact evaluate_inv s h

theorem brainStep_latch {s s2 : RuleState} (hstep : BrainStep s s2)
    (h : latchInv s) (hn : s.renovation_lead_notified = true) :
    s2.renovation_lead_notified = true := by
  cases hstep with
  | percept intent ents nf summary p v c q => exact hn
  | evalStep => exact (evaluate_latch s hn (h hn)).1

theorem reachable_inv {s : RuleState} (h : ReachableState s) : latchInv s := by
  induction h with
  | refl => intro habs; cases habs
  | tail hab hbc ih => exact brainStep_inv hbc ih

theorem phase_of_ended (s : RuleState) (h : s.conversation_ended = true) :
    getConversationPhase s = "ended" := by
  unfold getConversationPhase
  rw [if_pos h]

theorem evaluateCore_ended (s : RuleState) (intent sn : String)
    (entities nlp_flags : List (String × Value)) :
    evaluateCore s intent "ended" sn entities nlp_flags = (Option.none, s) := by
  unfold evaluateCore terminalStep
  rw [if_pos rfl]

theorem classify_greeting (entities : List (String × Value)) (st : RuleState)
    (sn : String) :
    classifyIntentWithContext "Greeting" entities st sn = "Greeting" := by
  unfold classifyIntentWithContext
  simp

theorem phase_not_terminal (s : RuleState)
    (h2 : s.conversation_ended = false)
    (h3 : s.lead_generation_complete = false) :
    getConversationPhase s ≠ "ended" ∧ getConversationPhase s ≠ "completed" := by
  unfold getConversationPhase
  rw [if_neg (by simp [h2]), if_neg (by simp [h3])]
  repeat' split
  all_goals exact ⟨by decide, by decide⟩

theorem metaStep_greeting (s : RuleState) (phase : String)
    (entities : List (String × Value)) :
    metaStep s "Greeting" phase entities =
      some (updateAndReturn (greetingReset s) greetAndOffer (some "initial")) := rfl

theorem evaluateCore_greeting (s : RuleState) (phase sn : String)
    (entities nlp_flags : List (String × Value))
    (hp1 : phase ≠ "ended") (hp2 : phase ≠ "completed")
    (hr : readyToNotify entities s = false) :
    evaluateCore s "Greeting" phase sn entities nlp_flags =
      updateAndReturn (greetingReset s) greetAndOffer (some "initial") := by
  unfold evaluateCore
  rw [terminalStep_none_of hp1 hp2]
  try dsimp only
  rw [if_neg (by simp [hr])]
  rw [metaStep_greeting]

theorem evaluate_greeting (s : RuleState)
    (h1 : s.current_intent = "Greeting")
    (h2 : s.conversation_ended = false)
    (h3 : s.lead_generation_complete = false)
    (h4 : readyToNotify s.entities s = false) :
    evaluate s = updateAndReturn
      (greetingReset { s with conversation_turn := s.conversation_turn + 1 })
      greetAndOffer (some "initial") := by
  obtain ⟨hp1, hp2⟩ := phase_not_terminal
    { s with conversation_turn := s.conversation_turn + 1 } h2 h3
  have h4a : readyToNotify s.entities
      { s with conversation_turn := s.conversation_turn + 1 } = false := h4
  unfold evaluate
  try dsimp only
  rw [h1]
  rw [show (if ("Greeting" : String) != "" then ("Greeting" : String) else "Unknown")
        = "Greeting" from rfl]
  rw [classify_greeting]
  exact evaluateCore_greeting _ _ _ _ _ hp1 hp2 h4a

theorem evalTail2_no_notify (s : RuleState) (intent phase sn : String)
    (entities nlp_flags : List (String × Value))
    (hn : s.renovation_lead_notified = true) :
    ∀ a, (evalTail2 s intent phase sn entities nlp_flags).1 = some a →
      a.action_type ≠ "notify_human_renovation_lead" := by
  unfold evalTail2
  rw [contactNotifyStep_none_of_notified hn]
  try dsimp only
  rcases hcf : confirmStep s intent phase entities with - | r2
  · try dsimp only
    rcases hq : faqStep s intent phase sn entities with - | r3
    · try dsimp only
      split
      · intro a ha
        rcases (unknownStep_state s entities).2.2.2 a ha with h | h | h <;>
          rw [h] <;> decide
      · intro a ha
        exact Option.noConfusion ha
    · try dsimp only
      intro a ha
      rcases (faqStep_some hq).2.2.2 a ha with h | h | h <;> rw [h] <;> decide
  · try dsimp only
    intro a ha
    rcases (confirmStep_some hcf).2.2.2 a ha with h | h | h <;> rw [h] <;> decide

theorem evalTail_no_notify (s : RuleState) (intent phase sn : String)
    (entities nlp_flags : List (String × Value))
    (hn : s.renovation_lead_notified = true)
    (hl : s.last_action_type ≠ "notify_human_renovation_lead") :
    ∀ a, (evalTail s intent phase sn entities nlp_flags).1 = some a →
      a.action_type ≠ "notify_human_renovation_lead" := by
  unfold evalTail
  rcases hp : pricingFlowStep s intent phase entities with - | r
  · try dsimp only
    rcases hcl : clarifyStep s intent phase with - | r2
    · try dsimp only
      rcases hco : collectStep s intent entities with - | r3
      · try dsimp only
        rcases hv : vehicleStep s intent entities with r4 | s2
        · try dsimp only
          intro a ha
          rw [vehicleStep_inl_act hv a ha]
          decide
        · try dsimp only
          obtain ⟨-, hv2, -, -⟩ := vehicleStep_inr_state hv
          exact evalTail2_no_notify s2 intent phase sn entities nlp_flags
            (hv2.trans hn)
      · try dsimp only
        intro a ha
        rcases (collectStep_some hco).2.2.2 a ha with h | h | h <;> rw [h] <;> decide
    · try dsimp only
      intro a ha
      rcases (clarifyStep_some hcl).2.2.2 a ha with h | h | h | h
      · rw [h]; exact hl
      · rw [h]; decide
      · rw [h]; decide
      · rw [h]; decide
  · try dsimp only
    intro a ha
    rw [(pricingFlowStep_some hp).2.2.2 a ha]
    decide

theorem evaluateCore_no_notify (s : RuleState) (intent phase sn : String)
    (entities nlp_flags : List (String × Value))
    (hn : s.renovation_lead_notified = true)
    (hl : s.last_action_type ≠ "notify_human_renovation_lead") :
    ∀ a, (evaluateCore s intent phase sn entities nlp_flags).1 = some a →
      a.action_type ≠ "notify_human_renovation_lead" := by
  unfold evaluateCore
  rcases ht : terminalStep s intent phase with - | r
  · try dsimp only
    rw [if_neg (by simp [hn])]
    rcases hm : metaStep s intent phase entities with - | r2
    · try dsimp only
      split
      · rcases he : expiredBlock s intent sn entities nlp_flags with r3 | s2
        · try dsimp only
          intro a ha
          rcases expiredBlock_inl_act he a ha with h | h | h | h | h <;>
            rw [h] <;> decide
        · try dsimp only
          obtain ⟨-, he2, -, he4⟩ := expiredBlock_inr_state he
          exact evalTail_no_notify s2 intent phase sn entities nlp_flags
            (he2.trans hn) (by rw [he4]; exact hl)
      · exact evalTail_no_notify s intent phase sn entities nlp_flags hn hl
    · try dsimp only
      intro a ha
      rcases (metaStep_some hm).2.2 a ha with h | h | h | h | h | h | h | h
      all_goals first | (rw [h]; exact hl) | (rw [h]; decide)
  · try dsimp only
    intro a ha
    rw [(terminalStep_some ht).2.2.2 a ha]
    decide

theorem summaryField_ok (v : Value) (h : summaryOkV v = true) :
    ∃ x, summaryField v = Except.ok x := by
  cases v
  case none => exact ⟨"", rfl⟩
  case str s => exact ⟨s, rfl⟩
  all_goals simp [summaryOkV] at h

theorem turnField_ok (v : Value) (h : turnOkV v = true) :
    ∃ x, turnField v = Except.ok x := by
  cases v
  case int n => exact ⟨n, rfl⟩
  case bool b => exact ⟨if b then 1 else 0, rfl⟩
  case str s =>
    simp only [turnOkV] at h
    rcases hp : parseIntPy s with - | n
    · rw [hp] at h
      simp at h
    · refine ⟨n, ?_⟩
      unfold turnField
      try dsimp only
      rw [hp]
  all_goals simp [turnOkV] at h

theorem dictField_ok (err : String) (v : Value) (h : nlpOkV v = true) :
    ∃ x, dictField err v = Except.ok x := by
  cases v
  case dict d => exact ⟨d, rfl⟩
  case none => exact ⟨[], rfl⟩
  all_goals (
    simp only [nlpOkV, Bool.not_eq_true'] at h
    refine ⟨[], ?_⟩
    unfold dictField
    simp [h])

theorem entsOkV_nlpOkV (v : Value) (h : entsOkV v = true) : nlpOkV v = true := by
  cases v <;> simp_all [entsOkV, nlpOkV]

theorem toRuleState_isOk (raw : List (String × Value))
    (h : wellTypedRaw raw = true) :
    (toRuleState raw).isOk = true := by
  unfold wellTypedRaw at h
  simp only [Bool.and_eq_true] at h
  obtain ⟨⟨⟨h1, h2⟩, h3⟩, h4⟩ := h
  obtain ⟨x1, e1⟩ := summaryField_ok _ h1
  obtain ⟨x2, e2⟩ := turnField_ok _ h2
  obtain ⟨x3, e3⟩ := dictField_ok "AttributeError: entities has no get" _
    (entsOkV_nlpOkV _ h3)
  obtain ⟨x4, e4⟩ := dictField_ok "AttributeError: nlp_flags has no get" _ h4
  unfold toRuleState
  rw [e1, e2, e3, e4]
  rfl

end RuleEngine

/-- C1: `renovation_lead_notified` is a one-way latch over the session
lifetime — from any reachable state with the flag set, no sequence of
further steps (percept merges or `evaluate_rules` calls, Greeting
included) ever clears it. -/
theorem C1_renovation_lead_latch {s s2 : RuleEngine.RuleState}
    (hreach : RuleEngine.ReachableState s)
    (hn : s.renovation_lead_notified = true)
    (hsteps : Relation.ReflTransGen RuleEngine.BrainStep s s2) :
    s2.renovation_lead_notified = true := by
  induction hsteps with
  | refl => exact hn
  | tail hab hbc ih =>
      exact RuleEngine.brainStep_latch hbc
        (RuleEngine.reachable_inv (Relation.ReflTransGen.trans hreach hab)) ih

/-- C1 witness: the default state reaches a notified state through a hot
percept and an `evaluate_rules` call, and one more evaluation keeps the
latch set. -/
theorem C1_renovation_lead_latch_witness :
    RuleEngine.notifiedState.renovation_lead_notified = true ∧
    (RuleEngine.evaluate RuleEngine.notifiedState).2.renovation_lead_notified = true :=
  ⟨rfl,
   C1_renovation_lead_latch
     (Relation.ReflTransGen.tail
       (Relation.ReflTransGen.single
         (show RuleEngine.BrainStep RuleEngine.defaultState RuleEngine.hotLeadState from
           RuleEngine.BrainStep.percept RuleEngine.defaultState "ProvideContactInfo"
             [("POLICY_NUMBER", Value.str "P123"), ("CUSTOMER_NAME", Value.str "Juan")]
             [] "" false false false false))
       (RuleEngine.BrainStep.evalStep RuleEngine.hotLeadState))
     rfl
     (Relation.ReflTransGen.single
       (RuleEngine.BrainStep.evalStep RuleEngine.notifiedState))⟩

/-- C2 counterexample: with the latch already set, a state whose stale
`last_action_type` is the notify type (mid pricing flow, unclassifiable
intent) makes `evaluate_rules` echo `notify_human_renovation_lead`
again, so the claimed never-again property fails as stated. -/
theorem C2_notify_echo_counterexample :
    RuleEngine.echoState.renovation_lead_notified = true ∧
    ((RuleEngine.evaluate RuleEngine.echoState).1.map RuleEngine.Action.action_type)
      = some "notify_human_renovation_lead" := ⟨rfl, rfl⟩

/-- C2 (amended): once `renovation_lead_notified` is true, provided the
recorded `last_action_type` is not itself the notify type (the
clarification echo re-issues that literal string), no `evaluate_rules`
call returns an action with action type `notify_human_renovation_lead`
— for any entities and any intent. -/
theorem C2_no_renotify_amended (s : RuleEngine.RuleState)
    (hn : s.renovation_lead_notified = true)
    (hl : s.last_action_type ≠ "notify_human_renovation_lead") :
    ∀ a, (RuleEngine.evaluate s).1 = some a →
      a.action_type ≠ "notify_human_renovation_lead" := by
  intro a ha
  exact RuleEngine.evaluateCore_no_notify
    { s with conversation_turn := s.conversation_turn + 1 }
    (RuleEngine.classifyIntentWithContext
      (if s.current_intent != "" then s.current_intent else "Unknown")
      s.entities { s with conversation_turn := s.conversation_turn + 1 }
      (RuleEngine.pyNorm s.conversation_summary))
    (RuleEngine.getConversationPhase
      { s with conversation_turn := s.conversation_turn + 1 })
    (RuleEngine.pyNorm s.conversation_summary) s.entities s.nlp_flags hn hl a ha

/-- C2 witness: a latched state with a clean `last_action_type` receives
a Greeting; the returned action is the greeting, not a re-notification. -/
theorem C2_no_renotify_amended_witness :
    RuleEngine.latchedGreetingState.renovation_lead_notified = true ∧
    (RuleEngine.evaluate RuleEngine.latchedGreetingState).1
      = some RuleEngine.greetAndOffer ∧
    RuleEngine.greetAndOffer.action_type ≠ "notify_human_renovation_lead" :=
  ⟨rfl, rfl,
   C2_no_renotify_amended RuleEngine.latchedGreetingState rfl (by decide)
     RuleEngine.greetAndOffer rfl⟩

/-- C3 counterexample: in the ended phase with a ThankYou intent the
engine returns nil, not a closing acknowledgment — the courtesy
exception exists only in the completed phase. -/
theorem C3_ended_thanks_counterexample :
    RuleEngine.endedThanksState.conversation_ended = true ∧
    RuleEngine.endedThanksState.current_intent = "ThankYou" ∧
    (RuleEngine.evaluate RuleEngine.endedThanksState).1 = Option.none :=
  ⟨rfl, rfl, rfl⟩

/-- C3 (amended): in the ended phase `evaluate_rules` returns nil
unconditionally — for every intent, courtesy close-outs included. -/
theorem C3_ended_returns_nil (s : RuleEngine.RuleState)
    (h : s.conversation_ended = true) :
    (RuleEngine.evaluate s).1 = Option.none := by
  have hp : RuleEngine.getConversationPhase
      { s with conversation_turn := s.conversation_turn + 1 } = "ended" :=
    RuleEngine.phase_of_ended { s with conversation_turn := s.conversation_turn + 1 } h
  show (RuleEngine.evaluateCore
      { s with conversation_turn := s.conversation_turn + 1 }
      (RuleEngine.classifyIntentWithContext
        (if s.current_intent != "" then s.current_intent else "Unknown")
        s.entities { s with conversation_turn := s.conversation_turn + 1 }
        (RuleEngine.pyNorm s.conversation_summary))
      (RuleEngine.getConversationPhase
        { s with conversation_turn := s.conversation_turn + 1 })
      (RuleEngine.pyNorm s.conversation_summary) s.entities s.nlp_flags).1 = Option.none
  rw [hp, RuleEngine.evaluateCore_ended]

/-- C3 witness: an ended session with a plain intent evaluates to nil. -/
theorem C3_ended_returns_nil_witness :
    (RuleEngine.evaluate
      { RuleEngine.defaultState with conversation_ended := true }).1 = Option.none :=
  C3_ended_returns_nil { RuleEngine.defaultState with conversation_ended := true } rfl

/-- C8 counterexample: a Greeting on a mid-flow state keeps
`policy_number_provided` true — the reset loop's key list does not
contain the derived progress flags, so they are not cleared. -/
theorem C8_progress_flags_counterexample :
    RuleEngine.midFlowGreetingState.current_intent = "Greeting" ∧
    RuleEngine.midFlowGreetingState.policy_number_provided = true ∧
    (RuleEngine.evaluate RuleEngine.midFlowGreetingState).2.policy_number_provided = true :=
  ⟨rfl, rfl, rfl⟩

/-- C8 (amended): a Greeting on a mid-flow state (not ended, lead not
complete, not ready to notify) returns the greeting action and resets
the flow — context `initial`, `waiting_for` cleared — while preserving
the conversation summary AND the derived progress flags
(`policy_number_provided`, `vehicle_details_provided`,
`contact_info_provided`), which the reset loop does not touch. -/
theorem C8_greeting_reset_amended (s : RuleEngine.RuleState)
    (h1 : s.current_intent = "Greeting")
    (h2 : s.conversation_ended = false)
    (h3 : s.lead_generation_complete = false)
    (h4 : RuleEngine.readyToNotify s.entities s = false) :
    (RuleEngine.evaluate s).1 = some RuleEngine.greetAndOffer ∧
    (RuleEngine.evaluate s).2.context = "initial" ∧
    (RuleEngine.evaluate s).2.waiting_for = "" ∧
    (RuleEngine.evaluate s).2.conversation_summary = s.conversation_summary ∧
    (RuleEngine.evaluate s).2.policy_number_provided = s.policy_number_provided ∧
    (RuleEngine.evaluate s).2.vehicle_details_provided = s.vehicle_details_provided ∧
    (RuleEngine.evaluate s).2.contact_info_provided = s.contact_info_provided := by
  rw [RuleEngine.evaluate_greeting s h1 h2 h3 h4]
  exact ⟨rfl, rfl, rfl, rfl, rfl, rfl, rfl⟩

/-- C8 witness: the mid-flow Greeting state keeps its progress flag and
its transcript through the reset. -/
theorem C8_greeting_reset_amended_witness :
    RuleEngine.midFlowGreetingState.conversation_summary = "User: hola | " ∧
    (RuleEngine.evaluate RuleEngine.midFlowGreetingState).2.conversation_summary
      = RuleEngine.midFlowGreetingState.conversation_summary ∧
    (RuleEngine.evaluate RuleEngine.midFlowGreetingState).2.context = "initial" :=
  ⟨rfl,
   (C8_greeting_reset_amended RuleEngine.midFlowGreetingState rfl rfl rfl rfl).2.2.2.1,
   (C8_greeting_reset_amended RuleEngine.midFlowGreetingState rfl rfl rfl rfl).2.1⟩

/-- C9 counterexample: the evaluator is not total on raw session
dictionaries — a None `conversation_turn` raises in `int(...)` and an
integer `conversation_summary` raises in `_norm` (`.lower()`).  A
present-None summary on the services_status path raises only at the
`_services_ok` re-read (line 104), past the entry normalization this
layer models, so the typed boundary excludes that state instead:
`wellTypedRaw` rejects it. -/
theorem C9_throws_counterexample :
    (RuleEngine.evaluateRaw RuleEngine.rawNoneTurn).isOk = false ∧
    (RuleEngine.evaluateRaw RuleEngine.rawIntSummary).isOk = false ∧
    RuleEngine.wellTypedRaw RuleEngine.rawNoneSummary = false := ⟨rfl, rfl, rfl⟩

/-- C9 (amended): `evaluate_rules` is total on well-typed raw session
dictionaries — summary a string or absent (NOT a present falsy
non-string, which raises at the unguarded `_services_ok` re-read), turn
an int/bool/numeric string or absent, entities and nlp flags dicts or
falsy — missing keys default, and the call returns an action or nil. -/
theorem C9_total_on_welltyped (raw : List (String × Value))
    (h : RuleEngine.wellTypedRaw raw = true) :
    (RuleEngine.evaluateRaw raw).isOk = true := by
  have h2 := RuleEngine.toRuleState_isOk raw h
  unfold RuleEngine.evaluateRaw
  rcases he : RuleEngine.toRuleState raw with e | st
  · rw [he] at h2
    simp [Except.isOk, Except.toBool] at h2
  · first
    | rfl
    | (rw [he]; rfl)

/-- C9 witness: a raw dictionary with a numeric-string turn counter and
a Bye intent is well typed and evaluates without error. -/
theorem C9_total_on_welltyped_witness :
    RuleEngine.wellTypedRaw RuleEngine.rawWellTyped = true ∧
    (RuleEngine.evaluateRaw RuleEngine.rawWellTyped).isOk = true :=
  ⟨rfl, C9_total_on_welltyped RuleEngine.rawWellTyped rfl⟩

/-- C10: every `evaluate_rules` call increments `conversation_turn` by
exactly one in the returned state, whether or not an action is produced. -/
theorem C10_turn_increment (s : RuleEngine.RuleState) :
    (RuleEngine.evaluate s).2.conversation_turn = s.conversation_turn + 1 :=
  (RuleEngine.evaluateCore_state
    { s with conversation_turn := s.conversation_turn + 1 }
    (RuleEngine.classifyIntentWithContext
      (if s.current_intent != "" then s.current_intent else "Unknown")
      s.entities { s with conversation_turn := s.conversation_turn + 1 }
      (RuleEngine.pyNorm s.conversation_summary))
    (RuleEngine.getConversationPhase
      { s with conversation_turn := s.conversation_turn + 1 })
    (RuleEngine.pyNorm s.conversation_summary) s.entities s.nlp_flags).1
